import Mathlib

/-!
# sia: stream aggregator, job store and job orchestrator

A shallow embedding of `internal/domain/{types,image_client,task_manager}.go` and of
`internal/service/image_service.go`, with theorems about the embedded functions.

Conventions of the embedding.

* Go strings are Lean strings; `len` is the UTF-8 byte size.
* `json.Unmarshal` into a `map[string]interface{}` is a library function; the aggregator takes
  it as the argument `unmarshal`, returning `none` where Go reports an error.  Every universal
  theorem holds for every such decoder.  `demoUnmarshal` is a small table of payloads used where
  a concrete run is evaluated.
* A response body is given by what its reader delivers: the lines, and the error the reader
  ends with (`SSEBody`).  The `bufio.Scanner` over it, with the default buffer the source
  leaves it, is `SSEBody.scanned` and `SSEBody.scanErr`: it yields the lines up to the first
  one that does not fit its buffer of 64 KiB and reports `token too long` there.
* A Go result pair `(*T, error)` is a pair of options; `none` is `nil`.
* `time.Now()` is an explicit clock reading passed to the operation that reads the clock.
* A store method holds the mutex of the store from its first statement to its last; it is a
  function on store states (`StoreOp.apply`) and also the list of its assignments in program
  order (`StoreOp.assignments`), and the states a job passes through are the states after
  each assignment (`taskTrace`).  `GetImageTask` reads the task after `GetTask` has released
  the lock; a poll concurrent with `UpdateTaskResult` is given step by step in a section of
  its own.
-/

namespace Sia

/-! ## Go library functions used by the source -/

/-- The predicate `unicode.IsSpace`: the code points with the White_Space property. -/
def isSpace (c : Char) : Bool :=
  let n := c.toNat
  n = 0x20 || (0x09 ≤ n && n ≤ 0x0D) || n = 0x85 || n = 0xA0 || n = 0x1680 ||
    (0x2000 ≤ n && n ≤ 0x200A) || n = 0x2028 || n = 0x2029 || n = 0x202F || n = 0x205F ||
    n = 0x3000

/-- The function `strings.TrimSpace`: leading and trailing white space removed. -/
def trimSpace (s : String) : String :=
  String.mk ((s.data.dropWhile isSpace).reverse.dropWhile isSpace).reverse

/-- The function `strings.HasPrefix`. -/
def hasPrefix (s p : String) : Bool :=
  p.data.isPrefixOf s.data

/-- The function `strings.TrimPrefix`. -/
def trimPrefix (s p : String) : String :=
  if hasPrefix s p then String.mk (s.data.drop p.data.length) else s

/-- A finite double, the only kind a JSON number decodes to: `mant * 2 ^ exp`. -/
structure Float64 where
  mant : Int
  exp : Int

/-- The mathematical value of a double rounded toward zero. -/
def Float64.trunc (f : Float64) : Int :=
  if 0 ≤ f.exp then f.mant * 2 ^ f.exp.toNat else Int.tdiv f.mant (2 ^ (-f.exp).toNat)

/-- The conversions `int64(f)` and (on a 64-bit platform) `int(f)`: truncation toward zero.
Go leaves the result for a value outside the range to the implementation; the amd64 value
is used here. -/
def Float64.toInt64 (f : Float64) : Int :=
  if -(2 : Int) ^ 63 ≤ f.trunc ∧ f.trunc < (2 : Int) ^ 63 then f.trunc else -(2 : Int) ^ 63

/-- A decoded `interface{}` value as `encoding/json` produces it. -/
inductive JSONValue where
  | null
  | bool (b : Bool)
  | number (f : Float64)
  | string (s : String)
  | array (xs : List JSONValue)
  | object (m : List (String × JSONValue))

/-- A decoded `map[string]interface{}`; `m[k]` is `List.lookup k m`. -/
abbrev JSONObject := List (String × JSONValue)

/-- The type assertion `v.(string)` on the result of a map index. -/
def asString : Option JSONValue → Option String
  | some (.string s) => some s
  | _ => none

/-- The type assertion `v.(float64)` on the result of a map index. -/
def asFloat64 : Option JSONValue → Option Float64
  | some (.number f) => some f
  | _ => none

/-- The type assertion `v.(map[string]interface{})` on the result of a map index. -/
def asObject : Option JSONValue → Option JSONObject
  | some (.object m) => some m
  | _ => none

/-- The decoder `json.Unmarshal([]byte(s), &eventData)`: `none` for a non-nil error. -/
abbrev Unmarshal := String → Option JSONObject

/-! ## `internal/domain/types.go` -/

/-- The struct `ImageData`. -/
structure ImageData where
  URL : String
  B64JSON : String
  RevisedPrompt : String
  deriving DecidableEq, Repr

/-- The struct `Usage`. -/
structure Usage where
  PromptTokens : Int
  CompletionTokens : Int
  TotalTokens : Int
  deriving DecidableEq, Repr

/-- The struct `ImageGenerationResponse`. -/
structure ImageGenerationResponse where
  ID : String
  Object : String
  Created : Int
  Model : String
  Data : List ImageData
  Usage : Usage
  deriving DecidableEq, Repr

/-- The zero value of `ImageGenerationResponse` (`var imageResp ImageGenerationResponse`). -/
def ImageGenerationResponse.zero : ImageGenerationResponse :=
  { ID := "", Object := "", Created := 0, Model := "", Data := [], Usage := ⟨0, 0, 0⟩ }

/-! ## `internal/domain/image_client.go`: `parseSSEResponse` -/

/-- What the reader of a response body delivers: the lines of the body in order, each as it
stands before the newline that ends it, a carriage return before the newline included, and
the error the reader ends with, `none` for `io.EOF`. -/
structure SSEBody where
  lines : List String
  err : Option String

/-- The constant `bufio.MaxScanTokenSize`, the largest buffer of a scanner on which `Buffer`
was not called. -/
def maxScanTokenSize : Nat :=
  64 * 1024

/-- Whether the scanner finds the end of a line: the line and its newline are in the buffer
together, so they are at most `maxScanTokenSize` bytes.  (A last line without a newline
obeys the same bound when the reader reports its end in a read of its own.) -/
def fitsBuffer (line : String) : Bool :=
  decide (line.utf8ByteSize + 1 ≤ maxScanTokenSize)

/-- The function `dropCR` of `bufio.ScanLines`: a final carriage return is dropped. -/
def dropCR (line : String) : String :=
  match line.data.reverse with
  | c :: rest => if c = '\r' then String.mk rest.reverse else line
  | [] => line

/-- The values of `scanner.Text()` in the iterations of `for scanner.Scan()`: the lines up to
the first one that does not fit the buffer, where `Scan` returns false. -/
def SSEBody.scanned (body : SSEBody) : List String :=
  (body.lines.takeWhile fitsBuffer).map dropCR

/-- The value of `scanner.Err()` after the loop: `bufio.ErrTooLong` when a line did not fit
the buffer, else the error of the reader, nil at the end of the body. -/
def SSEBody.scanErr (body : SSEBody) : Option String :=
  if body.lines.all fitsBuffer then body.err else some "bufio.Scanner: token too long"

/-- The variables `imageResp` and `images` of `parseSSEResponse`. -/
structure ScanState where
  imageResp : ImageGenerationResponse
  images : List ImageData
  deriving DecidableEq, Repr

/-- The state before the first line. -/
def ScanState.init : ScanState :=
  { imageResp := ImageGenerationResponse.zero, images := [] }

/-- The case `image_generation.partial_succeeded` of the switch. -/
def onPartialSucceeded (st : ScanState) (eventData : JSONObject) : ScanState :=
  let images :=
    match asString (eventData.lookup "url") with
    | some url =>
      let imageData : ImageData := { URL := url, B64JSON := "", RevisedPrompt := "" }
      let imageData :=
        match asString (eventData.lookup "revised_prompt") with
        | some revisedPrompt => { imageData with RevisedPrompt := revisedPrompt }
        | none => imageData
      st.images ++ [imageData]
    | none => st.images
  let imageResp :=
    if st.imageResp.ID = "" then
      let r := st.imageResp
      let r := match asString (eventData.lookup "id") with
        | some id => { r with ID := id }
        | none => r
      let r := match asString (eventData.lookup "model") with
        | some model => { r with Model := model }
        | none => r
      let r := match asFloat64 (eventData.lookup "created") with
        | some created => { r with Created := created.toInt64 }
        | none => r
      { r with Object := "list" }
    else st.imageResp
  { imageResp := imageResp, images := images }

/-- The case `image_generation.completed` of the switch. -/
def onCompleted (st : ScanState) (eventData : JSONObject) : ScanState :=
  match asObject (eventData.lookup "usage") with
  | some usageData =>
    let usage : Usage := ⟨0, 0, 0⟩
    let usage := match asFloat64 (usageData.lookup "generated_images") with
      | some generatedImages => { usage with PromptTokens := generatedImages.toInt64 }
      | none => usage
    let usage := match asFloat64 (usageData.lookup "output_tokens") with
      | some outputTokens => { usage with CompletionTokens := outputTokens.toInt64 }
      | none => usage
    let usage := match asFloat64 (usageData.lookup "total_tokens") with
      | some totalTokens => { usage with TotalTokens := totalTokens.toInt64 }
      | none => usage
    { st with imageResp := { st.imageResp with Usage := usage } }
  | none => st

/-- One iteration of the loop `for scanner.Scan()` of `parseSSEResponse`. -/
def scanLine (unmarshal : Unmarshal) (st : ScanState) (text : String) : ScanState :=
  let line := trimSpace text
  if line = "" ∨ line = "data: [DONE]" then st
  else if hasPrefix line "data: " then
    let jsonData := trimPrefix line "data: "
    match unmarshal jsonData with
    | none => st
    | some eventData =>
      match asString (eventData.lookup "type") with
      | none => st
      | some eventType =>
        if eventType = "image_generation.partial_succeeded" then onPartialSucceeded st eventData
        else if eventType = "image_generation.completed" then onCompleted st eventData
        else st
  else st

/-- The method `parseSSEResponse`: the result pair `(*ImageGenerationResponse, error)`. -/
def parseSSEResponse (unmarshal : Unmarshal) (body : SSEBody) :
    Option ImageGenerationResponse × Option String :=
  let st := body.scanned.foldl (scanLine unmarshal) ScanState.init
  match body.scanErr with
  | some err => (none, some ("error reading SSE stream: " ++ err))
  | none =>
    let imageResp := { st.imageResp with Data := st.images }
    if st.images.length = 0 then (none, some "no images generated")
    else (some imageResp, none)


/-! ## `internal/domain/types.go`: requests and tasks -/

/-- The struct `SequentialImageGenerationOptions`. -/
structure SequentialImageGenerationOptions where
  MaxImages : Int
  deriving DecidableEq, Repr

/-- The struct `ImageGenerationRequest`; a nil options pointer is `none`. -/
structure ImageGenerationRequest where
  Model : String
  Prompt : String
  Image : List String
  SequentialImageGeneration : String
  SequentialImageGenerationOptions : Option SequentialImageGenerationOptions
  ResponseFormat : String
  Size : String
  Stream : Bool
  Watermark : Bool
  deriving DecidableEq, Repr

/-- The type `TaskStatus` with its four constants. -/
inductive TaskStatus where
  | Pending
  | Processing
  | Completed
  | Failed
  deriving DecidableEq, Repr

/-- The struct `Task`; a nil `Result` is `none`, a `time.Time` is a clock reading. -/
structure Task where
  ID : String
  Status : TaskStatus
  Prompt : String
  Result : Option ImageGenerationResponse
  Error : String
  CreatedAt : Int
  UpdatedAt : Int
  deriving DecidableEq, Repr

/-! ## `internal/domain/image_client.go`: `GenerateImage` -/

/-- The struct `ImageClientConfig`. -/
structure ImageClientConfig where
  APIKey : String
  BaseURL : String
  Model : String
  DefaultSize : String
  Timeout : Int
  MaxRetries : Int
  deriving DecidableEq, Repr

/-- What happens to a request outside the program: `json.Marshal` fails, building the HTTP
request fails, `httpClient.Do` fails (a cancelled context and a timeout are such failures),
or the provider answers with a status code and a body.  `raw` is what `io.ReadAll` reads from
the body, `body` what a scanner over it yields. -/
inductive HTTPResult where
  | marshalError (err : String)
  | requestError (err : String)
  | sendError (err : String)
  | response (statusCode : Int) (raw : String) (body : SSEBody)

/-- The provider and the transport to it: the fate of each serialised request. -/
abbrev Transport := ImageGenerationRequest → HTTPResult

/-- The defaulting at the head of `GenerateImage` (the five `if` statements). -/
def applyDefaults (config : ImageClientConfig) (req : ImageGenerationRequest) :
    ImageGenerationRequest :=
  let req := if req.Model = "" then { req with Model := config.Model } else req
  let req := if req.ResponseFormat = "" then { req with ResponseFormat := "url" } else req
  let req := if req.Size = "" then { req with Size := config.DefaultSize } else req
  let req := if req.SequentialImageGeneration = "" then
    { req with SequentialImageGeneration := "auto" } else req
  let req := if req.SequentialImageGenerationOptions = none then
    { req with SequentialImageGenerationOptions := some { MaxImages := 3 } } else req
  req

/-- The method `ImageClient.GenerateImage`: the result pair
`(*ImageGenerationResponse, error)`, the error given by its message. -/
def ImageClient.GenerateImage (config : ImageClientConfig) (unmarshal : Unmarshal)
    (transport : Transport) (req : ImageGenerationRequest) :
    Option ImageGenerationResponse × Option String :=
  let req := applyDefaults config req
  match transport req with
  | .marshalError err => (none, some ("failed to marshal request: " ++ err))
  | .requestError err => (none, some ("failed to create request: " ++ err))
  | .sendError err => (none, some ("failed to send request: " ++ err))
  | .response statusCode raw body =>
    if statusCode ≠ 200 then
      (none, some ("API request failed with status " ++ toString statusCode ++ ": " ++ raw))
    else
      match parseSSEResponse unmarshal body with
      | (_, some err) => (none, some ("failed to parse SSE response: " ++ err))
      | (imageResp, none) => (imageResp, none)

/-! ## `internal/domain/task_manager.go` -/

/-- The struct `TaskManager`: the map `tasks` as an association list, `tasks[k]` being
`List.lookup k tasks`.  The mutex is not part of the state. -/
structure TaskManager where
  tasks : List (String × Task)
  deriving DecidableEq, Repr

/-- The function `NewTaskManager`. -/
def NewTaskManager : TaskManager :=
  { tasks := [] }

/-- The function `generateTaskID`, given the reading `time.Now().UnixNano()`. -/
def generateTaskID (unixNano : Int) : String :=
  "task_" ++ toString unixNano

/-- The number a run of decimal digits denotes, continuing from `acc`. -/
def digitsValue (acc : Nat) (ds : List Char) : Nat :=
  ds.foldl (fun a c => 10 * a + (c.toNat - 48)) acc

/-- The assignment `m[k] = v` on a map: the entry of `k` is replaced or added. -/
def mapAssign (m : List (String × Task)) (k : String) (v : Task) : List (String × Task) :=
  (k, v) :: m.filter fun p => p.1 ≠ k

/-- The update of the task `m[k]` through its pointer, when the key exists. -/
def mapModify (m : List (String × Task)) (k : String) (f : Task → Task) :
    List (String × Task) :=
  m.map fun p => if p.1 = k then (p.1, f p.2) else p

/-- The method `CreateTask`, given the three clock readings it takes (for the id, for
`CreatedAt`, for `UpdatedAt`): the task returned and the store afterwards. -/
def TaskManager.CreateTask (tm : TaskManager) (prompt : String)
    (idClock createdClock updatedClock : Int) : Task × TaskManager :=
  let task : Task :=
    { ID := generateTaskID idClock, Status := .Pending, Prompt := prompt, Result := none,
      Error := "", CreatedAt := createdClock, UpdatedAt := updatedClock }
  (task, { tasks := mapAssign tm.tasks task.ID task })

/-- The method `GetTask`: the pair `(task, exists)`. -/
def TaskManager.GetTask (tm : TaskManager) (taskID : String) : Option Task × Bool :=
  (tm.tasks.lookup taskID, (tm.tasks.lookup taskID).isSome)

/-- The method `UpdateTaskStatus`, given its clock reading. -/
def TaskManager.UpdateTaskStatus (tm : TaskManager) (taskID : String) (status : TaskStatus)
    (now : Int) : TaskManager :=
  { tasks := mapModify tm.tasks taskID fun task =>
      { task with Status := status, UpdatedAt := now } }

/-- The method `UpdateTaskResult`, given its clock reading. -/
def TaskManager.UpdateTaskResult (tm : TaskManager) (taskID : String)
    (result : Option ImageGenerationResponse) (now : Int) : TaskManager :=
  { tasks := mapModify tm.tasks taskID fun task =>
      { task with Status := .Completed, Result := result, UpdatedAt := now } }

/-- The method `UpdateTaskError`, given its clock reading. -/
def TaskManager.UpdateTaskError (tm : TaskManager) (taskID : String) (errorMsg : String)
    (now : Int) : TaskManager :=
  { tasks := mapModify tm.tasks taskID fun task =>
      { task with Status := .Failed, Error := errorMsg, UpdatedAt := now } }

/-- A call of a mutating store method with its arguments and clock readings. -/
inductive StoreOp where
  | createTask (prompt : String) (idClock createdClock updatedClock : Int)
  | updateTaskStatus (taskID : String) (status : TaskStatus) (now : Int)
  | updateTaskResult (taskID : String) (result : Option ImageGenerationResponse) (now : Int)
  | updateTaskError (taskID : String) (errorMsg : String) (now : Int)
  deriving DecidableEq, Repr

/-- The store after a call. -/
def StoreOp.apply (op : StoreOp) (tm : TaskManager) : TaskManager :=
  match op with
  | .createTask prompt idClock createdClock updatedClock =>
    (tm.CreateTask prompt idClock createdClock updatedClock).2
  | .updateTaskStatus taskID status now => tm.UpdateTaskStatus taskID status now
  | .updateTaskResult taskID result now => tm.UpdateTaskResult taskID result now
  | .updateTaskError taskID errorMsg now => tm.UpdateTaskError taskID errorMsg now

/-- The map key a call addresses. -/
def StoreOp.key : StoreOp → String
  | .createTask _ idClock _ _ => generateTaskID idClock
  | .updateTaskStatus taskID _ _ => taskID
  | .updateTaskResult taskID _ _ => taskID
  | .updateTaskError taskID _ _ => taskID

/-- A terminal store call: `UpdateTaskResult` or `UpdateTaskError`. -/
def StoreOp.isTerminal : StoreOp → Bool
  | .updateTaskResult _ _ _ => true
  | .updateTaskError _ _ _ => true
  | _ => false

/-- An assignment a store method makes while it holds the lock: the insertion of a task in
the map, or the assignment of one field of the task `tm.tasks[taskID]`. -/
inductive Assignment where
  | insertTask (task : Task)
  | setStatus (taskID : String) (status : TaskStatus)
  | setResult (taskID : String) (result : Option ImageGenerationResponse)
  | setError (taskID : String) (errorMsg : String)
  | setUpdatedAt (taskID : String) (now : Int)
  deriving DecidableEq, Repr

/-- The store after an assignment. -/
def Assignment.apply (a : Assignment) (tm : TaskManager) : TaskManager :=
  match a with
  | .insertTask task => { tasks := mapAssign tm.tasks task.ID task }
  | .setStatus taskID status =>
    { tasks := mapModify tm.tasks taskID fun task => { task with Status := status } }
  | .setResult taskID result =>
    { tasks := mapModify tm.tasks taskID fun task => { task with Result := result } }
  | .setError taskID errorMsg =>
    { tasks := mapModify tm.tasks taskID fun task => { task with Error := errorMsg } }
  | .setUpdatedAt taskID now =>
    { tasks := mapModify tm.tasks taskID fun task => { task with UpdatedAt := now } }

/-- The map key an assignment addresses. -/
def Assignment.key : Assignment → String
  | .insertTask task => task.ID
  | .setStatus taskID _ => taskID
  | .setResult taskID _ => taskID
  | .setError taskID _ => taskID
  | .setUpdatedAt taskID _ => taskID

/-- The assignments of a store call, in the order of the statements of its method:
`CreateTask` builds the task and inserts it; `UpdateTaskStatus` assigns `Status`, then
`UpdatedAt`; `UpdateTaskResult` assigns `Status`, then `Result`, then `UpdatedAt`;
`UpdateTaskError` assigns `Status`, then `Error`, then `UpdatedAt`. -/
def StoreOp.assignments : StoreOp → List Assignment
  | .createTask prompt idClock createdClock updatedClock =>
    [.insertTask
      { ID := generateTaskID idClock, Status := .Pending, Prompt := prompt, Result := none,
        Error := "", CreatedAt := createdClock, UpdatedAt := updatedClock }]
  | .updateTaskStatus taskID status now => [.setStatus taskID status, .setUpdatedAt taskID now]
  | .updateTaskResult taskID result now =>
    [.setStatus taskID .Completed, .setResult taskID result, .setUpdatedAt taskID now]
  | .updateTaskError taskID errorMsg now =>
    [.setStatus taskID .Failed, .setError taskID errorMsg, .setUpdatedAt taskID now]

/-- A state of a job: the task as the memory holds it, and whether the job is at rest, that
is, whether no store call that addresses the job stands between two of its assignments. -/
structure JobState where
  atRest : Bool
  job : Option Task
  deriving DecidableEq, Repr

/-- The states of the job `taskID` after each assignment of one store call.  The job is at
rest after the last assignment of the call, and after an assignment to another key. -/
def assignmentTrace (taskID : String) : TaskManager → List Assignment → List JobState
  | _, [] => []
  | tm, a :: rest =>
    { atRest := rest.isEmpty || decide (a.key ≠ taskID),
      job := ((a.apply tm).GetTask taskID).1 } ::
      assignmentTrace taskID (a.apply tm) rest

/-- The states of the job `taskID` after each assignment of a sequence of store calls.  The
calls hold the lock of the store, so the assignments of two calls do not interleave. -/
def callTrace (taskID : String) : TaskManager → List StoreOp → List JobState
  | _, [] => []
  | tm, op :: ops =>
    assignmentTrace taskID tm op.assignments ++ callTrace taskID (op.apply tm) ops

/-- The states the job `taskID` passes through along a sequence of store calls: the state
before the first call, then the state after each assignment of each call. -/
def taskTrace (taskID : String) (tm : TaskManager) (ops : List StoreOp) : List JobState :=
  { atRest := true, job := (tm.GetTask taskID).1 } :: callTrace taskID tm ops

/-- The store after a sequence of calls. -/
def runOps (ops : List StoreOp) (tm : TaskManager) : TaskManager :=
  ops.foldl (fun tm op => op.apply tm) tm

/-! ## `internal/service/image_service.go` -/

/-- Modelled from the spec: the generated message `imagev1.GenerateImageRequest` is not in
the source; these are the fields the service reads (synchronous generation: prompt, optional
model, size, watermark, reference images). -/
structure GenerateImageRequest where
  Prompt : String
  Model : String
  Size : String
  ImageUrls : List String
  Watermark : Bool
  deriving DecidableEq, Repr

/-- Modelled from the spec: the generated enumeration `imagev1.TaskStatus` is not in the
source; these are the five constants `convertTaskStatus` returns. -/
inductive PBTaskStatus where
  | TASK_STATUS_UNSPECIFIED
  | TASK_STATUS_PENDING
  | TASK_STATUS_PROCESSING
  | TASK_STATUS_COMPLETED
  | TASK_STATUS_FAILED
  deriving DecidableEq, Repr

/-- Modelled from the spec: the generated message `imagev1.GenerateImageAsyncResponse` is not
in the source; these are the fields the service sets (job identifier, initial status,
creation time). -/
structure GenerateImageAsyncResponse where
  TaskId : String
  Status : PBTaskStatus
  CreatedAt : Int
  deriving DecidableEq, Repr

/-- Modelled from the spec: the generated message `imagev1.ImageData` is not in the source;
these are the fields `convertToGRPCResponse` sets. -/
structure PBImageData where
  Url : String
  B64Json : String
  RevisedPrompt : String
  deriving DecidableEq, Repr

/-- Modelled from the spec: the generated message `imagev1.GenerateImageResponse` is not in
the source; these are the fields `convertToGRPCResponse` sets, the usage counters being
`int32` values. -/
structure GenerateImageResponse where
  RequestId : String
  Images : List PBImageData
  Usage : Usage
  Model : String
  CreatedAt : Int
  deriving DecidableEq, Repr

/-- Modelled from the spec: the generated message `imagev1.GetImageTaskResponse` is not in
the source; these are the fields `GetImageTask` sets (status, timestamps, result if
completed, error message if failed). -/
structure GetImageTaskResponse where
  TaskId : String
  Status : PBTaskStatus
  CreatedAt : Int
  UpdatedAt : Int
  Result : Option GenerateImageResponse
  ErrorMessage : String
  deriving DecidableEq, Repr

/-- The gRPC status codes the service uses. -/
inductive Code where
  | InvalidArgument
  | Internal
  | NotFound
  deriving DecidableEq, Repr

/-- The error `status.Error(code, message)`. -/
structure StatusError where
  code : Code
  message : String
  deriving DecidableEq, Repr

/-- The struct `ImageService`: the client configuration (which `NewImageService` copies from
the service configuration) and the environment of the client. -/
structure ImageService where
  config : ImageClientConfig
  unmarshal : Unmarshal
  transport : Transport

/-- The conversion `int32(n)` of an `int`. -/
def int32 (n : Int) : Int :=
  (n + 2 ^ 31) % 2 ^ 32 - 2 ^ 31

/-- The method `validateGenerateImageRequest`: the message of the error, `none` for nil. -/
def ImageService.validateGenerateImageRequest (req : GenerateImageRequest) : Option String :=
  if req.Prompt = "" then some "prompt is required"
  else if req.Prompt.utf8ByteSize > 1000 then some "prompt too long, maximum 1000 characters"
  else none

/-- The method `getModel`. -/
def ImageService.getModel (s : ImageService) (model : String) : String :=
  if model = "" then s.config.Model else model

/-- The method `getSize`. -/
def ImageService.getSize (s : ImageService) (size : String) : String :=
  if size = "" then s.config.DefaultSize else size

/-- The method `convertToGRPCResponse`. -/
def ImageService.convertToGRPCResponse (response : ImageGenerationResponse) :
    GenerateImageResponse :=
  { RequestId := response.ID
    Images := response.Data.map fun img =>
      { Url := img.URL, B64Json := img.B64JSON, RevisedPrompt := img.RevisedPrompt }
    Usage :=
      { PromptTokens := int32 response.Usage.PromptTokens
        CompletionTokens := int32 response.Usage.CompletionTokens
        TotalTokens := int32 response.Usage.TotalTokens }
    Model := response.Model
    CreatedAt := response.Created }

/-- The method `convertTaskStatus`. -/
def ImageService.convertTaskStatus : TaskStatus → PBTaskStatus
  | .Pending => .TASK_STATUS_PENDING
  | .Processing => .TASK_STATUS_PROCESSING
  | .Completed => .TASK_STATUS_COMPLETED
  | .Failed => .TASK_STATUS_FAILED

/-- The request `domainReq` the service builds from a `GenerateImageRequest`. -/
def ImageService.domainRequest (s : ImageService) (req : GenerateImageRequest) :
    ImageGenerationRequest :=
  { Model := s.getModel req.Model
    Prompt := req.Prompt
    Image := req.ImageUrls
    SequentialImageGeneration := ""
    SequentialImageGenerationOptions := none
    ResponseFormat := "url"
    Size := s.getSize req.Size
    Stream := true
    Watermark := req.Watermark }

/-- The method `GenerateImageAsync` up to its return: the result pair, the store afterwards,
and the task the goroutine it started holds (`none` when it started none). -/
def ImageService.GenerateImageAsync (tm : TaskManager) (req : GenerateImageRequest)
    (idClock createdClock updatedClock : Int) :
    (Option GenerateImageAsyncResponse × Option StatusError) × TaskManager × Option Task :=
  match ImageService.validateGenerateImageRequest req with
  | some err => ((none, some { code := .InvalidArgument, message := err }), tm, none)
  | none =>
    let created := tm.CreateTask req.Prompt idClock createdClock updatedClock
    let task := created.1
    ((some { TaskId := task.ID, Status := .TASK_STATUS_PENDING, CreatedAt := task.CreatedAt },
      none), created.2, some task)

/-- A step of the goroutine `GenerateImageAsync` starts: a call of a store method, or the
call of the client. -/
inductive AsyncStep where
  | store (op : StoreOp)
  | gateway (req : ImageGenerationRequest)
  deriving DecidableEq, Repr

/-- The goroutine `GenerateImageAsync` starts, statement by statement: it builds `domainReq`,
calls `UpdateTaskStatus` with Processing, calls `imageClient.GenerateImage`, and then calls
`UpdateTaskError` when that call returned an error and `UpdateTaskResult` when it returned
none.  The two clock readings are those of the two store calls. -/
def ImageService.asyncGeneration (s : ImageService) (req : GenerateImageRequest) (task : Task)
    (clock1 clock2 : Int) : List AsyncStep :=
  let domainReq := s.domainRequest req
  let generated := ImageClient.GenerateImage s.config s.unmarshal s.transport domainReq
  [ .store (StoreOp.updateTaskStatus task.ID .Processing clock1),
    .gateway domainReq,
    .store
      (match generated.2 with
      | some err => StoreOp.updateTaskError task.ID err clock2
      | none => StoreOp.updateTaskResult task.ID generated.1 clock2) ]

/-- The store calls among the steps of a goroutine, in order. -/
def storeCalls : List AsyncStep → List StoreOp
  | [] => []
  | .store op :: rest => op :: storeCalls rest
  | .gateway _ :: rest => storeCalls rest

/-- The method `GetImageTask`: the result pair. -/
def ImageService.GetImageTask (tm : TaskManager) (taskId : String) :
    Option GetImageTaskResponse × Option StatusError :=
  match tm.GetTask taskId with
  | (some task, true) =>
    let response : GetImageTaskResponse :=
      { TaskId := task.ID, Status := ImageService.convertTaskStatus task.Status,
        CreatedAt := task.CreatedAt, UpdatedAt := task.UpdatedAt, Result := none,
        ErrorMessage := "" }
    let response :=
      match task.Status, task.Result with
      | .Completed, some result =>
        { response with Result := some (ImageService.convertToGRPCResponse result) }
      | _, _ => response
    let response :=
      if task.Status = .Failed ∧ task.Error ≠ "" then
        { response with ErrorMessage := task.Error }
      else response
    (some response, none)
  | _ => (none, some { code := .NotFound, message := "Task not found" })

/-- Modelled from the spec: the generated message `imagev1.GenerateSequentialImagesRequest`
is not in the source; these are the fields the service reads (prompt, maximum image count,
model, size, watermark), the count being an `int32`. -/
structure GenerateSequentialImagesRequest where
  Prompt : String
  Model : String
  MaxImages : Int
  Size : String
  Watermark : Bool
  deriving DecidableEq, Repr

/-- The method `validateSequentialImagesRequest`: the message of the error, `none` for nil. -/
def ImageService.validateSequentialImagesRequest (req : GenerateSequentialImagesRequest) :
    Option String :=
  if req.Prompt = "" then some "prompt is required"
  else if req.Prompt.utf8ByteSize > 1000 then some "prompt too long, maximum 1000 characters"
  else if req.MaxImages ≤ 0 ∨ req.MaxImages > 10 then
    some "max_images must be between 1 and 10"
  else none

/-- The request `domainReq` the service builds from a `GenerateSequentialImagesRequest`. -/
def ImageService.sequentialDomainRequest (s : ImageService)
    (req : GenerateSequentialImagesRequest) : ImageGenerationRequest :=
  { Model := s.getModel req.Model
    Prompt := req.Prompt
    Image := []
    SequentialImageGeneration := "auto"
    SequentialImageGenerationOptions := some { MaxImages := req.MaxImages }
    ResponseFormat := "url"
    Size := s.getSize req.Size
    Stream := true
    Watermark := req.Watermark }

/-- The method `GenerateImage` of the service: the result pair, and the requests it passed
to `imageClient.GenerateImage`, in order.  The client returns a response whenever it returns
no error, so the conversion is never applied to nil. -/
def ImageService.GenerateImage (s : ImageService) (req : GenerateImageRequest) :
    (Option GenerateImageResponse × Option StatusError) × List ImageGenerationRequest :=
  match ImageService.validateGenerateImageRequest req with
  | some err => ((none, some { code := .InvalidArgument, message := err }), [])
  | none =>
    let domainReq := s.domainRequest req
    let generated := ImageClient.GenerateImage s.config s.unmarshal s.transport domainReq
    match generated.2 with
    | some _ =>
      ((none, some { code := .Internal, message := "Failed to generate image" }), [domainReq])
    | none => ((generated.1.map ImageService.convertToGRPCResponse, none), [domainReq])

/-- The method `GenerateSequentialImages`: the result pair, and the requests it passed to
`imageClient.GenerateImage`, in order. -/
def ImageService.GenerateSequentialImages (s : ImageService)
    (req : GenerateSequentialImagesRequest) :
    (Option GenerateImageResponse × Option StatusError) × List ImageGenerationRequest :=
  match ImageService.validateSequentialImagesRequest req with
  | some err => ((none, some { code := .InvalidArgument, message := err }), [])
  | none =>
    let domainReq := s.sequentialDomainRequest req
    let generated := ImageClient.GenerateImage s.config s.unmarshal s.transport domainReq
    match generated.2 with
    | some _ =>
      ((none, some { code := .Internal, message := "Failed to generate sequential images" }),
        [domainReq])
    | none => ((generated.1.map ImageService.convertToGRPCResponse, none), [domainReq])

/-! ## A poll concurrent with `UpdateTaskResult`

`GetTask` holds the read lock for the map lookup only and returns the `*Task` it found;
`GetImageTask` reads the fields of that task after the lock is released.  `UpdateTaskResult`
holds the write lock and assigns `Status`, `Result` and `UpdatedAt`, in this order.  The two
methods are given here as sequences of atomic steps on the shared memory, one statement a
step and the statements of `GetImageTask` taken whole, so that every run below is a run of
the program. -/

/-- The two goroutines. -/
inductive Thread where
  | poller
  | writer
  deriving DecidableEq, Repr

/-- The shared memory, the program counters and the local variables of the poller. -/
structure RaceState where
  tm : TaskManager
  locked : Bool
  writerPC : Nat
  pollerPC : Nat
  response : Option GetImageTaskResponse
  err : Option StatusError
  deriving DecidableEq, Repr

/-- The state in which both methods have just been called. -/
def RaceState.start (tm : TaskManager) : RaceState :=
  { tm := tm, locked := false, writerPC := 0, pollerPC := 0, response := none, err := none }

/-- One step of `UpdateTaskResult(taskID, result)`: `Lock` (which waits while the lock is
held), the three assignments through `tm.tasks[taskID]`, the deferred `Unlock`. -/
def RaceState.writerStep (taskID : String) (result : Option ImageGenerationResponse)
    (now : Int) (st : RaceState) : RaceState :=
  match st.writerPC with
  | 0 => if st.locked then st else { st with locked := true, writerPC := 1 }
  | 1 =>
    { st with
      tm := { tasks := mapModify st.tm.tasks taskID fun task =>
        { task with Status := .Completed } }
      writerPC := 2 }
  | 2 =>
    { st with
      tm := { tasks := mapModify st.tm.tasks taskID fun task => { task with Result := result } }
      writerPC := 3 }
  | 3 =>
    { st with
      tm := { tasks := mapModify st.tm.tasks taskID fun task => { task with UpdatedAt := now } }
      writerPC := 4 }
  | 4 => { st with locked := false, writerPC := 5 }
  | _ => st

/-- One step of `GetImageTask(taskId)`: the call of `GetTask` (which waits while the write
lock is held), the construction of the response, the test for a completed task, the test
for a failed task.  The last three read the task through the pointer `GetTask` returned. -/
def RaceState.pollerStep (taskId : String) (st : RaceState) : RaceState :=
  match st.pollerPC with
  | 0 =>
    if st.locked then st
    else
      match st.tm.GetTask taskId with
      | (some _, true) => { st with pollerPC := 1 }
      | _ =>
        { st with err := some { code := .NotFound, message := "Task not found" }, pollerPC := 4 }
  | 1 =>
    match st.tm.tasks.lookup taskId with
    | some task =>
      { st with
        response := some
          { TaskId := task.ID, Status := ImageService.convertTaskStatus task.Status,
            CreatedAt := task.CreatedAt, UpdatedAt := task.UpdatedAt, Result := none,
            ErrorMessage := "" }
        pollerPC := 2 }
    | none => st
  | 2 =>
    match st.tm.tasks.lookup taskId, st.response with
    | some task, some response =>
      match task.Status, task.Result with
      | .Completed, some result =>
        { st with
          response := some
            { response with Result := some (ImageService.convertToGRPCResponse result) }
          pollerPC := 3 }
      | _, _ => { st with pollerPC := 3 }
    | _, _ => st
  | 3 =>
    match st.tm.tasks.lookup taskId, st.response with
    | some task, some response =>
      if task.Status = .Failed ∧ task.Error ≠ "" then
        { st with response := some { response with ErrorMessage := task.Error }, pollerPC := 4 }
      else { st with pollerPC := 4 }
    | _, _ => st
  | _ => st

/-- One step of the goroutine the scheduler picks. -/
def RaceState.step (taskID : String) (result : Option ImageGenerationResponse) (now : Int)
    (st : RaceState) : Thread → RaceState
  | .poller => st.pollerStep taskID
  | .writer => st.writerStep taskID result now

/-- The run of a schedule from the state in which both methods have just been called. -/
def runRace (taskID : String) (result : Option ImageGenerationResponse) (now : Int)
    (tm : TaskManager) (schedule : List Thread) : RaceState :=
  schedule.foldl (RaceState.step taskID result now) (RaceState.start tm)

/-! ## Events of a stream, as the wire contract describes them -/

/-- The event a line carries: the line, white space trimmed, is neither empty nor the
sentinel `data: [DONE]`, starts with `data: `, and the rest decodes to an object with a string
`type`.  The result is that type and the object. -/
def eventOf (unmarshal : Unmarshal) (text : String) : Option (String × JSONObject) :=
  if trimSpace text = "" ∨ trimSpace text = "data: [DONE]" then none
  else if hasPrefix (trimSpace text) "data: " then
    match unmarshal (trimPrefix (trimSpace text) "data: ") with
    | none => none
    | some obj => (asString (obj.lookup "type")).map fun ty => (ty, obj)
  else none

/-- The objects of the events of the given type in a stream, in arrival order. -/
def eventsOfType (unmarshal : Unmarshal) (ty : String) (lines : List String) : List JSONObject :=
  lines.filterMap fun text =>
    match eventOf unmarshal text with
    | some (ty', obj) => if ty' = ty then some obj else none
    | none => none

/-- The `image_generation.partial_succeeded` events of a stream, in arrival order. -/
def partialEvents (unmarshal : Unmarshal) (lines : List String) : List JSONObject :=
  eventsOfType unmarshal "image_generation.partial_succeeded" lines

/-- The `image_generation.completed` events of a stream, in arrival order. -/
def completedEvents (unmarshal : Unmarshal) (lines : List String) : List JSONObject :=
  eventsOfType unmarshal "image_generation.completed" lines

/-- The image a well-formed partial_succeeded event carries: its string `url` and, when
present, its string `revised_prompt`; `none` for an event without a string `url`. -/
def imageOfEvent (obj : JSONObject) : Option ImageData :=
  (asString (obj.lookup "url")).map fun url =>
    { URL := url, B64JSON := "", RevisedPrompt := (asString (obj.lookup "revised_prompt")).getD "" }

/-- The image of a line that is a well-formed partial_succeeded event. -/
def partialImage (unmarshal : Unmarshal) (text : String) : Option ImageData :=
  match eventOf unmarshal text with
  | some (ty, obj) => if ty = "image_generation.partial_succeeded" then imageOfEvent obj else none
  | none => none

/-- A tolerated line: empty once trimmed, or a `data: ` line whose payload does not decode to
an object, or decodes to one without a string `type`, or with a `type` that is neither of the
two recognised ones. -/
def Tolerated (unmarshal : Unmarshal) (text : String) : Prop :=
  trimSpace text = "" ∨
  (hasPrefix (trimSpace text) "data: " = true ∧
    (unmarshal (trimPrefix (trimSpace text) "data: ") = none ∨
      ∃ obj, unmarshal (trimPrefix (trimSpace text) "data: ") = some obj ∧
        ∀ ty, asString (obj.lookup "type") = some ty →
          ty ≠ "image_generation.partial_succeeded" ∧ ty ≠ "image_generation.completed"))

/-- The well-formed partial_succeeded events of a stream: those with a string `url`. -/
def wellFormedPartialEvents (unmarshal : Unmarshal) (lines : List String) : List JSONObject :=
  (partialEvents unmarshal lines).filter fun obj => (asString (obj.lookup "url")).isSome

/-- The usage counters a completed event carries: those of its nested `usage` object, a
counter it lacks being zero; `none` for an event without a `usage` object. -/
def usageOfEvent (obj : JSONObject) : Option Usage :=
  (asObject (obj.lookup "usage")).map fun usageData =>
    { PromptTokens :=
        ((asFloat64 (usageData.lookup "generated_images")).map Float64.toInt64).getD 0
      CompletionTokens :=
        ((asFloat64 (usageData.lookup "output_tokens")).map Float64.toInt64).getD 0
      TotalTokens :=
        ((asFloat64 (usageData.lookup "total_tokens")).map Float64.toInt64).getD 0 }

/-- The usage counters a line contributes: those of a completed event with a `usage` object. -/
def usageOfLine (unmarshal : Unmarshal) (text : String) : Option Usage :=
  match eventOf unmarshal text with
  | some (ty, obj) => if ty = "image_generation.completed" then usageOfEvent obj else none
  | none => none

/-- The identifier an event carries: its string `id`. -/
def idOfEvent (obj : JSONObject) : Option String :=
  asString (obj.lookup "id")

/-- The model an event carries: its string `model`. -/
def modelOfEvent (obj : JSONObject) : Option String :=
  asString (obj.lookup "model")

/-- The creation timestamp an event carries: its number `created`, as an `int64`. -/
def createdOfEvent (obj : JSONObject) : Option Int :=
  (asFloat64 (obj.lookup "created")).map Float64.toInt64

/-! ## Concrete payloads and streams -/

/-- Payload: a partial_succeeded event with url, model and created, without an id. -/
def payloadNoID : String :=
  "\x7b\"type\":\"image_generation.partial_succeeded\",\"url\":\"u1\",\"model\":\"m1\",\"created\":1\x7d"

/-- Payload: a partial_succeeded event with url, id, model and created. -/
def payloadSecond : String :=
  "\x7b\"type\":\"image_generation.partial_succeeded\",\"url\":\"u2\",\"id\":\"id2\",\"model\":\"m2\",\"created\":2\x7d"

/-- Payload: a partial_succeeded event with url, id, model, created and revised prompt. -/
def payloadFull : String :=
  "\x7b\"type\":\"image_generation.partial_succeeded\",\"url\":\"u0\",\"id\":\"id0\",\"model\":\"m0\",\"created\":7,\"revised_prompt\":\"rp0\"\x7d"

/-- Payload: a partial_succeeded event with an id and no url. -/
def payloadNoURL : String :=
  "\x7b\"type\":\"image_generation.partial_succeeded\",\"id\":\"id9\"\x7d"

/-- Payload: a completed event with a usage object. -/
def payloadUsage : String :=
  "\x7b\"type\":\"image_generation.completed\",\"usage\":\x7b\"generated_images\":1,\"output_tokens\":2,\"total_tokens\":3\x7d\x7d"

/-- Payload: a completed event without a usage object. -/
def payloadNoUsage : String :=
  "\x7b\"type\":\"image_generation.completed\"\x7d"

/-- Payload: an event of an unrecognised type. -/
def payloadPing : String :=
  "\x7b\"type\":\"ping\"\x7d"

/-- The result of `json.Unmarshal` on the payloads above; every other payload used in an
evaluated run (`\x7boops`, `[DONE]`) is one Go rejects. -/
def demoUnmarshal : Unmarshal := fun s =>
  if s = payloadNoID then
    some [("type", .string "image_generation.partial_succeeded"), ("url", .string "u1"),
      ("model", .string "m1"), ("created", .number ⟨1, 0⟩)]
  else if s = payloadSecond then
    some [("type", .string "image_generation.partial_succeeded"), ("url", .string "u2"),
      ("id", .string "id2"), ("model", .string "m2"), ("created", .number ⟨2, 0⟩)]
  else if s = payloadFull then
    some [("type", .string "image_generation.partial_succeeded"), ("url", .string "u0"),
      ("id", .string "id0"), ("model", .string "m0"), ("created", .number ⟨7, 0⟩),
      ("revised_prompt", .string "rp0")]
  else if s = payloadNoURL then
    some [("type", .string "image_generation.partial_succeeded"), ("id", .string "id9")]
  else if s = payloadUsage then
    some [("type", .string "image_generation.completed"),
      ("usage", .object [("generated_images", .number ⟨1, 0⟩), ("output_tokens", .number ⟨2, 0⟩),
        ("total_tokens", .number ⟨3, 0⟩)])]
  else if s = payloadNoUsage then
    some [("type", .string "image_generation.completed")]
  else if s = payloadPing then
    some [("type", .string "ping")]
  else none

/-- A stream of two well-formed partial_succeeded events closed by the sentinel. -/
def streamTwoImages : List String :=
  ["data: " ++ payloadFull, "data: " ++ payloadSecond, "data: [DONE]"]

/-- A stream with a completed event and no partial_succeeded event. -/
def streamNoImage : List String :=
  ["data: " ++ payloadUsage, "data: [DONE]"]

/-- A stream whose first partial_succeeded event carries no id. -/
def streamFirstWithoutID : List String :=
  ["data: " ++ payloadNoID, "data: " ++ payloadSecond, "data: [DONE]"]

/-- A stream whose last completed event carries no usage object. -/
def streamLastWithoutUsage : List String :=
  ["data: " ++ payloadFull, "data: " ++ payloadUsage, "data: " ++ payloadNoUsage, "data: [DONE]"]

/-- A stream with two completed events, each with a usage object. -/
def streamWithUsage : List String :=
  ["data: " ++ payloadFull, "data: " ++ payloadNoUsage, "data: " ++ payloadUsage, "data: [DONE]"]

/-! ## Concrete stores -/

/-- A store reached through its own methods: one job, created and then failed. -/
def storeWithFailedJob : TaskManager :=
  ((NewTaskManager.CreateTask "a red balloon" 1 1 1).2).UpdateTaskError "task_1" "boom" 2

/-- A result with one image. -/
def oneImageResult : ImageGenerationResponse :=
  { ID := "id0", Object := "list", Created := 7, Model := "m0",
    Data := [{ URL := "u0", B64JSON := "", RevisedPrompt := "" }], Usage := ⟨0, 0, 0⟩ }

/-- A store reached through its own methods: one job, created and then completed. -/
def storeWithCompletedJob : TaskManager :=
  ((NewTaskManager.CreateTask "a red balloon" 1 1 1).2).UpdateTaskResult "task_1"
    (some oneImageResult) 2

/-- A service whose provider streams two images. -/
def serviceTwoImages : ImageService :=
  { config := ⟨"k", "http://provider", "m", "2K", 60, 3⟩
    unmarshal := demoUnmarshal
    transport := fun _ => .response 200 "" ⟨streamTwoImages, none⟩ }

/-- A service whose provider answers with status 500. -/
def serviceUpstreamError : ImageService :=
  { serviceTwoImages with transport := fun _ => .response 500 "overloaded" ⟨[], none⟩ }

/-- A valid request. -/
def balloonRequest : GenerateImageRequest :=
  { Prompt := "a red balloon", Model := "", Size := "", ImageUrls := [], Watermark := false }

/-- A stream with the sentinel in the middle and an event after it. -/
def streamSentinelInside : List String :=
  ["data: " ++ payloadFull, "data: [DONE]", "data: " ++ payloadSecond]

/-- A stream whose first partial_succeeded event carries an id and no url. -/
def streamFirstWithoutURL : List String :=
  ["data: " ++ payloadNoURL, "data: " ++ payloadSecond, "data: [DONE]"]

/-- A stream whose only partial_succeeded event carries no url. -/
def streamOnlyWithoutURL : List String :=
  ["data: " ++ payloadNoURL, "data: " ++ payloadUsage, "data: [DONE]"]

/-- A store reached through its own methods: one job, created and set to Processing. -/
def storeWithProcessingJob : TaskManager :=
  ((NewTaskManager.CreateTask "a red balloon" 1 1 1).2).UpdateTaskStatus "task_1"
    .Processing 2

/-- The schedule in which the poll starts first, `UpdateTaskResult` then takes the lock and
assigns `Status`, the poll then reads the task, and `UpdateTaskResult` finishes. -/
def scheduleStatusBeforeResult : List Thread :=
  [.poller, .writer, .writer, .poller, .poller, .poller, .writer, .writer, .writer]

/-- The schedule in which `UpdateTaskResult` runs to its end before the poll starts. -/
def scheduleWriterFirst : List Thread :=
  [.writer, .writer, .writer, .writer, .writer, .poller, .poller, .poller, .poller]

/-- A prompt of 334 characters, each of three bytes in UTF-8. -/
def promptOfCats : String :=
  String.mk (List.replicate 334 '猫')

/-- A request that asks for no streaming. -/
def requestWithoutStream : ImageGenerationRequest :=
  { Model := "", Prompt := "a red balloon", Image := [], SequentialImageGeneration := "",
    SequentialImageGenerationOptions := none, ResponseFormat := "", Size := "",
    Stream := false, Watermark := false }

/-- A transport that reports the `stream` field of the body it is given. -/
def transportEchoStream : Transport := fun req =>
  .sendError (if req.Stream then "stream=true" else "stream=false")

/-- A blank line of 65536 spaces: with its newline it does not fit the scanner's buffer. -/
def blankLine64K : String :=
  String.mk (List.replicate 65536 ' ')

/-- The sentinel followed by 65536 spaces. -/
def paddedSentinel : String :=
  "data: [DONE]" ++ blankLine64K

/-- A stream with a well-formed event, an over-long blank line and the sentinel. -/
def streamWithLongLine : List String :=
  ["data: " ++ payloadFull, blankLine64K, "data: [DONE]"]

/-- A stream with a completed event, an over-long blank line and the sentinel. -/
def streamNoImageLongLine : List String :=
  ["data: " ++ payloadUsage, blankLine64K, "data: [DONE]"]

/-- A stream whose first line is over-long and whose second is a well-formed event. -/
def streamLongLineFirst : List String :=
  [blankLine64K, "data: " ++ payloadFull]

/-- A service whose provider answers the prompt `a red balloon` with status 500 and streams
two images for every other prompt. -/
def serviceFailsOnBalloon : ImageService :=
  { serviceTwoImages with
    transport := fun req =>
      if req.Prompt = "a red balloon" then .response 500 "overloaded" ⟨[], none⟩
      else .response 200 "" ⟨streamTwoImages, none⟩ }

/-- Another valid request. -/
def kiteRequest : GenerateImageRequest :=
  { Prompt := "a blue kite", Model := "", Size := "", ImageUrls := [], Watermark := false }

/-! # Theorems -/

set_option maxRecDepth 100000

/-- One loop iteration acts on the event of the line, and on nothing else. -/
theorem scanLine_eq_eventOf (unmarshal : Unmarshal) (st : ScanState) (text : String) :
    scanLine unmarshal st text =
      match eventOf unmarshal text with
      | none => st
      | some (ty, obj) =>
        if ty = "image_generation.partial_succeeded" then onPartialSucceeded st obj
        else if ty = "image_generation.completed" then onCompleted st obj
        else st := by
  unfold scanLine eventOf
  by_cases h1 : trimSpace text = "" ∨ trimSpace text = "data: [DONE]"
  · simp [h1]
  · by_cases h2 : hasPrefix (trimSpace text) "data: " = true
    · simp only [h1, h2, if_false, if_true]
      cases h3 : unmarshal (trimPrefix (trimSpace text) "data: ") with
      | none => simp
      | some obj =>
        cases h4 : asString (List.lookup "type" obj) with
        | none => simp [h4]
        | some ty => simp [h4]
    · simp [h1, h2]


theorem onPartialSucceeded_images (st : ScanState) (obj : JSONObject) :
    (onPartialSucceeded st obj).images = st.images ++ (imageOfEvent obj).toList := by
  unfold onPartialSucceeded imageOfEvent
  cases h : asString (List.lookup "url" obj) with
  | none => simp
  | some url =>
    cases h2 : asString (List.lookup "revised_prompt" obj) <;> simp [h2]

theorem onCompleted_images (st : ScanState) (obj : JSONObject) :
    (onCompleted st obj).images = st.images := by
  unfold onCompleted
  cases h : asObject (List.lookup "usage" obj) <;> simp

theorem scanLine_images (unmarshal : Unmarshal) (st : ScanState) (text : String) :
    (scanLine unmarshal st text).images = st.images ++ (partialImage unmarshal text).toList := by
  rw [scanLine_eq_eventOf]
  unfold partialImage
  cases h : eventOf unmarshal text with
  | none => simp
  | some p =>
    obtain ⟨ty, obj⟩ := p
    by_cases h1 : ty = "image_generation.partial_succeeded"
    · simp [h1, onPartialSucceeded_images]
    · by_cases h2 : ty = "image_generation.completed"
      · simp [h1, h2, onCompleted_images]
      · simp [h1, h2]

theorem foldl_scanLine_images (unmarshal : Unmarshal) (lines : List String) (st : ScanState) :
    (lines.foldl (scanLine unmarshal) st).images =
      st.images ++ lines.filterMap (partialImage unmarshal) := by
  induction lines generalizing st with
  | nil => simp
  | cons text rest ih =>
    rw [List.foldl_cons, ih, scanLine_images, List.filterMap_cons]
    cases partialImage unmarshal text <;> simp

theorem filterMap_partialImage (unmarshal : Unmarshal) (lines : List String) :
    lines.filterMap (partialImage unmarshal) =
      (wellFormedPartialEvents unmarshal lines).filterMap imageOfEvent := by
  unfold wellFormedPartialEvents partialEvents eventsOfType
  induction lines with
  | nil => simp
  | cons text rest ih =>
    rw [List.filterMap_cons, List.filterMap_cons, ih]
    unfold partialImage
    cases h : eventOf unmarshal text with
    | none => simp
    | some p =>
      obtain ⟨ty, obj⟩ := p
      by_cases h1 : ty = "image_generation.partial_succeeded"
      · simp only [h1, if_true]
        cases h2 : asString (List.lookup "url" obj) with
        | none => simp [imageOfEvent, h2, List.filter_cons]
        | some url => simp [imageOfEvent, h2, List.filter_cons]
      · simp [h1]

theorem getElem?_filterMap_of_isSome {α β : Type} (f : α → Option β) (l : List α)
    (h : ∀ a ∈ l, (f a).isSome = true) (i : Nat) :
    (l.filterMap f)[i]? = l[i]?.bind f := by
  induction l generalizing i with
  | nil => simp
  | cons a rest ih =>
    have ha := h a (List.mem_cons_self a rest)
    obtain ⟨b, hb⟩ := Option.isSome_iff_exists.mp ha
    rw [List.filterMap_cons, hb]
    cases i with
    | zero => simp [hb]
    | succ j =>
      simp only [List.getElem?_cons_succ]
      exact ih (fun x hx => h x (List.mem_cons_of_mem a hx)) j

theorem length_filterMap_of_isSome {α β : Type} (f : α → Option β) (l : List α)
    (h : ∀ a ∈ l, (f a).isSome = true) : (l.filterMap f).length = l.length := by
  induction l with
  | nil => simp
  | cons a rest ih =>
    have ha := h a (List.mem_cons_self a rest)
    obtain ⟨b, hb⟩ := Option.isSome_iff_exists.mp ha
    rw [List.filterMap_cons, hb]
    simp [ih (fun x hx => h x (List.mem_cons_of_mem a hx))]

theorem imageOfEvent_isSome_of_wellFormed (unmarshal : Unmarshal) (lines : List String) :
    ∀ obj ∈ wellFormedPartialEvents unmarshal lines, (imageOfEvent obj).isSome = true := by
  intro obj hobj
  unfold wellFormedPartialEvents at hobj
  have := (List.mem_filter.mp hobj).2
  unfold imageOfEvent
  simpa using this

/-! ## The scanner -/

theorem dropWhile_reverse_dropWhile_concat (p : Char → Bool) (l : List Char) (c : Char)
    (hc : p c = true) :
    ((l ++ [c]).dropWhile p).reverse.dropWhile p = (l.dropWhile p).reverse.dropWhile p := by
  induction l with
  | nil => simp [List.dropWhile, hc]
  | cons a rest ih =>
    by_cases ha : p a = true
    · simp only [List.cons_append, List.dropWhile_cons_of_pos ha, ih]
    · simp only [List.cons_append, List.dropWhile_cons_of_neg ha]
      rw [show a :: (rest ++ [c]) = (a :: rest) ++ [c] from rfl, List.reverse_append]
      simp only [List.reverse_singleton, List.singleton_append, List.dropWhile_cons_of_pos hc]

theorem trimSpace_mk_concat (l : List Char) (c : Char) (hc : isSpace c = true) :
    trimSpace (String.mk (l ++ [c])) = trimSpace (String.mk l) := by
  unfold trimSpace
  simp only [dropWhile_reverse_dropWhile_concat isSpace l c hc]

theorem trimSpace_dropCR (line : String) : trimSpace (dropCR line) = trimSpace line := by
  unfold dropCR
  cases h : line.data.reverse with
  | nil => rfl
  | cons c rest =>
    simp only []
    by_cases hc : c = '\r'
    · rw [if_pos hc]
      have hdata : line.data = rest.reverse ++ [c] := by
        have := congrArg List.reverse h
        simpa using this
      have hline : line = String.mk (rest.reverse ++ [c]) := String.ext hdata
      rw [hline, trimSpace_mk_concat _ _ (by rw [hc]; decide)]
    · rw [if_neg hc]

theorem trimSpace_append_spaces (s : String) (n : Nat) :
    trimSpace (s ++ String.mk (List.replicate n ' ')) = trimSpace s := by
  induction n with
  | zero =>
    have : s ++ String.mk (List.replicate 0 ' ') = s := by
      apply String.ext
      simp [String.data_append]
    rw [this]
  | succ n ih =>
    have : s ++ String.mk (List.replicate (n + 1) ' ') =
        String.mk ((s ++ String.mk (List.replicate n ' ')).data ++ [' ']) := by
      apply String.ext
      simp [String.data_append, List.replicate_succ']
    rw [this, trimSpace_mk_concat _ _ (by decide), ih]

theorem utf8ByteSize_spaces (n : Nat) :
    (String.mk (List.replicate n ' ')).utf8ByteSize = n := by
  induction n with
  | zero => rfl
  | succ n ih =>
    simp only [String.utf8ByteSize_mk] at ih ⊢
    rw [List.replicate_succ, String.utf8Len_cons, ih]
    rfl

theorem utf8ByteSize_append (s t : String) :
    (s ++ t).utf8ByteSize = s.utf8ByteSize + t.utf8ByteSize := by
  show (String.mk (s ++ t).data).utf8ByteSize = _
  rw [String.data_append, String.utf8ByteSize_mk, String.utf8Len_append]
  rfl

theorem fitsBuffer_iff (line : String) : fitsBuffer line = true ↔ line.utf8ByteSize < 65536 := by
  unfold fitsBuffer maxScanTokenSize
  simp only [decide_eq_true_eq]
  omega

theorem fitsBuffer_eq_false (line : String) (h : 65536 ≤ line.utf8ByteSize) :
    fitsBuffer line = false := by
  cases hb : fitsBuffer line with
  | false => rfl
  | true =>
    have := (fitsBuffer_iff line).mp hb
    omega

theorem fitsBuffer_blankLine64K : fitsBuffer blankLine64K = false :=
  fitsBuffer_eq_false _ (Nat.le_of_eq (utf8ByteSize_spaces 65536).symm)

theorem fitsBuffer_paddedSentinel : fitsBuffer paddedSentinel = false := by
  apply fitsBuffer_eq_false
  have h := utf8ByteSize_append "data: [DONE]" (String.mk (List.replicate 65536 ' '))
  rw [utf8ByteSize_spaces] at h
  have h2 : paddedSentinel.utf8ByteSize =
      ("data: [DONE]" ++ String.mk (List.replicate 65536 ' ')).utf8ByteSize := rfl
  omega

theorem trimSpace_spaces (n : Nat) : trimSpace (String.mk (List.replicate n ' ')) = "" := by
  induction n with
  | zero => decide
  | succ n ih =>
    rw [List.replicate_succ', trimSpace_mk_concat _ _ (by decide), ih]

theorem trimSpace_blankLine64K : trimSpace blankLine64K = "" :=
  trimSpace_spaces 65536

theorem trimSpace_paddedSentinel : trimSpace paddedSentinel = "data: [DONE]" := by
  unfold paddedSentinel blankLine64K
  rw [trimSpace_append_spaces]
  decide

theorem scanLine_dropCR (unmarshal : Unmarshal) (st : ScanState) (text : String) :
    scanLine unmarshal st (dropCR text) = scanLine unmarshal st text := by
  unfold scanLine
  rw [trimSpace_dropCR]

theorem foldl_scanLine_map_dropCR (unmarshal : Unmarshal) (lines : List String)
    (st : ScanState) :
    (lines.map dropCR).foldl (scanLine unmarshal) st = lines.foldl (scanLine unmarshal) st := by
  induction lines generalizing st with
  | nil => rfl
  | cons text rest ih =>
    simp only [List.map_cons, List.foldl_cons, scanLine_dropCR, ih]

theorem takeWhile_fitsBuffer_of_fit (lines : List String)
    (h : ∀ line ∈ lines, line.utf8ByteSize < 65536) :
    lines.takeWhile fitsBuffer = lines ∧ lines.all fitsBuffer = true := by
  have hall : ∀ line ∈ lines, fitsBuffer line = true :=
    fun line hl => (fitsBuffer_iff line).mpr (h line hl)
  exact ⟨List.takeWhile_eq_self_iff.mpr hall, List.all_eq_true.mpr hall⟩

/-- The method on a body: the loop runs over the lines up to the first that does not fit. -/
theorem parseSSEResponse_eq (unmarshal : Unmarshal) (body : SSEBody) :
    parseSSEResponse unmarshal body =
      match body.scanErr with
      | some err => (none, some ("error reading SSE stream: " ++ err))
      | none =>
        if ((body.lines.takeWhile fitsBuffer).foldl (scanLine unmarshal)
            ScanState.init).images.length = 0 then (none, some "no images generated")
        else (some { ((body.lines.takeWhile fitsBuffer).foldl (scanLine unmarshal)
            ScanState.init).imageResp with
          Data := ((body.lines.takeWhile fitsBuffer).foldl (scanLine unmarshal)
            ScanState.init).images }, none) := by
  unfold parseSSEResponse SSEBody.scanned
  simp only [foldl_scanLine_map_dropCR]

/-- On a body whose lines all fit the buffer the loop runs over every line and the scanner
reports the error of the reader. -/
theorem parseSSEResponse_of_fit (unmarshal : Unmarshal) (body : SSEBody)
    (h : ∀ line ∈ body.lines, line.utf8ByteSize < 65536) :
    parseSSEResponse unmarshal body =
      match body.err with
      | some err => (none, some ("error reading SSE stream: " ++ err))
      | none =>
        if (body.lines.foldl (scanLine unmarshal) ScanState.init).images.length = 0 then
          (none, some "no images generated")
        else (some { (body.lines.foldl (scanLine unmarshal) ScanState.init).imageResp with
          Data := (body.lines.foldl (scanLine unmarshal) ScanState.init).images }, none) := by
  rw [parseSSEResponse_eq]
  obtain ⟨h1, h2⟩ := takeWhile_fitsBuffer_of_fit body.lines h
  simp only [SSEBody.scanErr, h1, h2, if_true]

/-- A line that does not fit the buffer makes the method fail with the scanner's error. -/
theorem parseSSEResponse_of_long_line (unmarshal : Unmarshal) (body : SSEBody)
    (h : ∃ line ∈ body.lines, fitsBuffer line = false) :
    parseSSEResponse unmarshal body =
      (none, some "error reading SSE stream: bufio.Scanner: token too long") := by
  rw [parseSSEResponse_eq]
  have hall : body.lines.all fitsBuffer = false := by
    obtain ⟨line, hl, hf⟩ := h
    cases hb : body.lines.all fitsBuffer with
    | false => rfl
    | true =>
      have := List.all_eq_true.mp hb line hl
      rw [hf] at this
      exact absurd this (by decide)
  simp only [SSEBody.scanErr, hall]
  rfl

/-- A success means the scanner reported no error: every line fits the buffer and was read. -/
theorem fit_of_success (unmarshal : Unmarshal) (body : SSEBody) (r : ImageGenerationResponse)
    (h : (parseSSEResponse unmarshal body).1 = some r) :
    (∀ line ∈ body.lines, line.utf8ByteSize < 65536) ∧ body.err = none := by
  have hall : body.lines.all fitsBuffer = true := by
    cases hb : body.lines.all fitsBuffer with
    | true => rfl
    | false =>
      obtain ⟨line, hl, hf⟩ : ∃ line ∈ body.lines, fitsBuffer line = false := by
        by_contra hno
        have : body.lines.all fitsBuffer = true := by
          apply List.all_eq_true.mpr
          intro x hx
          cases hx2 : fitsBuffer x with
          | true => rfl
          | false => exact absurd ⟨x, hx, hx2⟩ hno
        rw [hb] at this
        exact absurd this (by decide)
      rw [parseSSEResponse_of_long_line unmarshal body ⟨line, hl, hf⟩] at h
      exact absurd h (by simp)
  have hfit : ∀ line ∈ body.lines, line.utf8ByteSize < 65536 :=
    fun line hl => (fitsBuffer_iff line).mp (List.all_eq_true.mp hall line hl)
  refine ⟨hfit, ?_⟩
  rw [parseSSEResponse_of_fit unmarshal body hfit] at h
  cases he : body.err with
  | none => rfl
  | some e => rw [he] at h; exact absurd h (by simp)

theorem eventOf_blankLine64K (unmarshal : Unmarshal) :
    eventOf unmarshal blankLine64K = none := by
  unfold eventOf
  rw [trimSpace_blankLine64K]
  rfl

theorem eventsOfType_insert_of_none (unmarshal : Unmarshal) (ty : String)
    (before after : List String) (text : String) (h : eventOf unmarshal text = none) :
    eventsOfType unmarshal ty (before ++ text :: after) =
      eventsOfType unmarshal ty (before ++ after) := by
  unfold eventsOfType
  rw [List.filterMap_append, List.filterMap_append, List.filterMap_cons]
  simp only [h]

theorem foldl_takeWhile_insert (f : ScanState → String → ScanState) (text : String)
    (hfit : fitsBuffer text = true) (hskip : ∀ st, f st text = st)
    (before after : List String) (st : ScanState) :
    ((before ++ text :: after).takeWhile fitsBuffer).foldl f st =
      ((before ++ after).takeWhile fitsBuffer).foldl f st := by
  induction before generalizing st with
  | nil =>
    simp only [List.nil_append, List.takeWhile_cons_of_pos hfit, List.foldl_cons, hskip]
  | cons b rest ih =>
    by_cases hb : fitsBuffer b = true
    · simp only [List.cons_append, List.takeWhile_cons_of_pos hb, List.foldl_cons, ih]
    · simp only [List.cons_append, List.takeWhile_cons_of_neg hb]

/-- Inserting a line that fits the buffer and on which the loop body does nothing leaves the
result of the method unchanged. -/
theorem parseSSEResponse_insert_skipped (unmarshal : Unmarshal) (before after : List String)
    (err : Option String) (text : String) (hfit : text.utf8ByteSize < 65536)
    (hskip : ∀ st, scanLine unmarshal st text = st) :
    parseSSEResponse unmarshal ⟨before ++ text :: after, err⟩ =
      parseSSEResponse unmarshal ⟨before ++ after, err⟩ := by
  have hf : fitsBuffer text = true := (fitsBuffer_iff text).mpr hfit
  have hfold := foldl_takeWhile_insert (scanLine unmarshal) text hf hskip before after
    ScanState.init
  have hall : (before ++ text :: after).all fitsBuffer = (before ++ after).all fitsBuffer := by
    simp only [List.all_append, List.all_cons, hf, Bool.true_and]
  rw [parseSSEResponse_eq, parseSSEResponse_eq]
  simp only [SSEBody.scanErr, hfold, hall]

/-- C1 (as amended). A stream of lines, each shorter than 65536 bytes and all delivered by
the reader without error, that carries at least one well-formed partial_succeeded event and
ends with the line `data: [DONE]` aggregates successfully: the images of the result are, one
for one and in arrival order, those of the well-formed partial_succeeded events, the i-th
image carrying the url and revised prompt of the i-th such event. -/
theorem parseSSEResponse_images_of_events (unmarshal : Unmarshal) (lines : List String)
    (hfit : ∀ line ∈ lines, line.utf8ByteSize < 65536)
    (hev : wellFormedPartialEvents unmarshal lines ≠ [])
    (_hdone : lines.getLast? = some "data: [DONE]") :
    ∃ r, parseSSEResponse unmarshal ⟨lines, none⟩ = (some r, none) ∧
      r.Data.length = (wellFormedPartialEvents unmarshal lines).length ∧
      ∀ (i : Nat) (obj : JSONObject), (wellFormedPartialEvents unmarshal lines)[i]? = some obj →
        ∃ url, asString (obj.lookup "url") = some url ∧
          r.Data[i]? = some (ImageData.mk url ""
            ((asString (obj.lookup "revised_prompt")).getD "")) := by
  have himg := foldl_scanLine_images unmarshal lines ScanState.init
  rw [filterMap_partialImage] at himg
  simp only [ScanState.init, List.nil_append] at himg
  have hsome := imageOfEvent_isSome_of_wellFormed unmarshal lines
  have hlen := length_filterMap_of_isSome imageOfEvent _ hsome
  have hpos : (List.foldl (scanLine unmarshal) ScanState.init lines).images.length ≠ 0 := by
    rw [ScanState.init, himg, hlen]
    exact fun h => hev (List.length_eq_zero.mp h)
  refine ⟨{ (List.foldl (scanLine unmarshal) ScanState.init lines).imageResp with
      Data := (List.foldl (scanLine unmarshal) ScanState.init lines).images }, ?_, ?_, ?_⟩
  · rw [parseSSEResponse_of_fit unmarshal ⟨lines, none⟩ hfit]
    exact if_neg hpos
  · simp only [ScanState.init, himg, hlen]
  · intro i obj hi
    have hmem : obj ∈ wellFormedPartialEvents unmarshal lines := List.getElem?_mem hi
    have hurl := (List.mem_filter.mp hmem).2
    obtain ⟨url, hu⟩ := Option.isSome_iff_exists.mp hurl
    refine ⟨url, hu, ?_⟩
    simp only [ScanState.init, himg]
    rw [getElem?_filterMap_of_isSome imageOfEvent _ hsome, hi]
    simp [imageOfEvent, hu]

/-- C1, witness of the amended statement: the stream `streamTwoImages` of two well-formed
events and the sentinel. -/
theorem parseSSEResponse_images_of_events_witness :
    ∃ r, parseSSEResponse demoUnmarshal ⟨streamTwoImages, none⟩ = (some r, none) ∧
      r.Data.length = (wellFormedPartialEvents demoUnmarshal streamTwoImages).length ∧
      ∀ (i : Nat) (obj : JSONObject),
        (wellFormedPartialEvents demoUnmarshal streamTwoImages)[i]? = some obj →
        ∃ url, asString (obj.lookup "url") = some url ∧
          r.Data[i]? = some (ImageData.mk url ""
            ((asString (obj.lookup "revised_prompt")).getD "")) :=
  parseSSEResponse_images_of_events demoUnmarshal streamTwoImages (by decide)
    (fun h => absurd (congrArg List.length h) (by decide)) (by decide)

/-- C1, counterexample to the claim as stated: `streamWithLongLine` carries one well-formed
partial_succeeded event and ends with the line `data: [DONE]`, and the method fails, because
the blank line of 65536 bytes between the two does not fit the scanner's buffer. -/
theorem parseSSEResponse_fails_on_long_line :
    (wellFormedPartialEvents demoUnmarshal streamWithLongLine).length = 1 ∧
    streamWithLongLine.getLast? = some "data: [DONE]" ∧
    blankLine64K.utf8ByteSize = 65536 ∧
    parseSSEResponse demoUnmarshal ⟨streamWithLongLine, none⟩ =
      (none, some "error reading SSE stream: bufio.Scanner: token too long") := by
  refine ⟨?_, rfl, utf8ByteSize_spaces 65536, ?_⟩
  · have h := eventsOfType_insert_of_none demoUnmarshal "image_generation.partial_succeeded"
      ["data: " ++ payloadFull] ["data: [DONE]"] blankLine64K
      (eventOf_blankLine64K demoUnmarshal)
    unfold wellFormedPartialEvents partialEvents streamWithLongLine
    rw [show ["data: " ++ payloadFull, blankLine64K, "data: [DONE]"] =
      ["data: " ++ payloadFull] ++ blankLine64K :: ["data: [DONE]"] from rfl, h]
    decide
  · exact parseSSEResponse_of_long_line demoUnmarshal ⟨streamWithLongLine, none⟩
      ⟨blankLine64K, List.mem_cons_of_mem _ (List.mem_cons_self _ _), fitsBuffer_blankLine64K⟩

/-- C2 (as amended). A success never carries an empty image list, whatever the body.  A
stream without a partial_succeeded event fails, whether or not it has completed events:
with the empty-result error when every line is shorter than 65536 bytes and the reader ends
without error, with the error of the reader when every line is shorter than 65536 bytes and
the reader ends with one, and with the scanner's `token too long` when a line is not. -/
theorem parseSSEResponse_never_empty_success (unmarshal : Unmarshal) (body : SSEBody) :
    (∀ r, (parseSSEResponse unmarshal body).1 = some r → r.Data ≠ []) ∧
    (partialEvents unmarshal body.lines = [] → (parseSSEResponse unmarshal body).1 = none) ∧
    ((∀ line ∈ body.lines, line.utf8ByteSize < 65536) → body.err = none →
      partialEvents unmarshal body.lines = [] →
      parseSSEResponse unmarshal body = (none, some "no images generated")) ∧
    ((∀ line ∈ body.lines, line.utf8ByteSize < 65536) → ∀ e, body.err = some e →
      parseSSEResponse unmarshal body = (none, some ("error reading SSE stream: " ++ e))) ∧
    ((∃ line ∈ body.lines, 65536 ≤ line.utf8ByteSize) →
      parseSSEResponse unmarshal body =
        (none, some "error reading SSE stream: bufio.Scanner: token too long")) := by
  have hempty : (∀ line ∈ body.lines, line.utf8ByteSize < 65536) → body.err = none →
      partialEvents unmarshal body.lines = [] →
      parseSSEResponse unmarshal body = (none, some "no images generated") := by
    intro hfit herr hnone
    have himg := foldl_scanLine_images unmarshal body.lines ScanState.init
    rw [filterMap_partialImage] at himg
    unfold wellFormedPartialEvents at himg
    rw [hnone] at himg
    rw [parseSSEResponse_of_fit unmarshal body hfit]
    simp only [herr]
    exact if_pos (by rw [himg]; rfl)
  have hlong : (∃ line ∈ body.lines, 65536 ≤ line.utf8ByteSize) →
      parseSSEResponse unmarshal body =
        (none, some "error reading SSE stream: bufio.Scanner: token too long") := by
    rintro ⟨line, hl, hsize⟩
    exact parseSSEResponse_of_long_line unmarshal body
      ⟨line, hl, fitsBuffer_eq_false line hsize⟩
  refine ⟨?_, ?_, hempty, ?_, hlong⟩
  · intro r hr
    obtain ⟨hfit, _⟩ := fit_of_success unmarshal body r hr
    rw [parseSSEResponse_of_fit unmarshal body hfit] at hr
    cases herr : body.err with
    | some e => simp [herr] at hr
    | none =>
      simp only [herr] at hr
      by_cases h0 : (List.foldl (scanLine unmarshal) ScanState.init body.lines).images.length = 0
      · simp [h0] at hr
      · simp only [h0, if_false, Option.some.injEq] at hr
        rw [← hr]
        exact fun h => h0 (by simpa using h)
  · intro hnone
    cases hp : (parseSSEResponse unmarshal body).1 with
    | none => rfl
    | some r =>
      obtain ⟨hfit, herr⟩ := fit_of_success unmarshal body r hp
      rw [hempty hfit herr hnone] at hp
      exact absurd hp (by simp)
  · intro hfit e herr
    rw [parseSSEResponse_of_fit unmarshal body hfit]
    simp only [herr]

/-- C2, witness of the amended statement: the stream `streamNoImage`, a completed event and
the sentinel. -/
theorem parseSSEResponse_never_empty_success_witness :
    parseSSEResponse demoUnmarshal ⟨streamNoImage, none⟩ = (none, some "no images generated") :=
  (parseSSEResponse_never_empty_success demoUnmarshal ⟨streamNoImage, none⟩).2.2.1
    (by decide) rfl rfl

/-- C2, counterexample to the claim as stated: `streamNoImageLongLine` has no
partial_succeeded event, and the method fails with the scanner's error, not with the
empty-result error, because of its blank line of 65536 bytes. -/
theorem parseSSEResponse_long_line_is_read_error :
    (partialEvents demoUnmarshal streamNoImageLongLine).length = 0 ∧
    blankLine64K.utf8ByteSize = 65536 ∧
    parseSSEResponse demoUnmarshal ⟨streamNoImageLongLine, none⟩ =
      (none, some "error reading SSE stream: bufio.Scanner: token too long") ∧
    parseSSEResponse demoUnmarshal ⟨streamNoImageLongLine, none⟩ ≠
      (none, some "no images generated") := by
  have hparse : parseSSEResponse demoUnmarshal ⟨streamNoImageLongLine, none⟩ =
      (none, some "error reading SSE stream: bufio.Scanner: token too long") :=
    parseSSEResponse_of_long_line demoUnmarshal ⟨streamNoImageLongLine, none⟩
      ⟨blankLine64K, List.mem_cons_of_mem _ (List.mem_cons_self _ _), fitsBuffer_blankLine64K⟩
  refine ⟨?_, utf8ByteSize_spaces 65536, hparse, ?_⟩
  · have h := eventsOfType_insert_of_none demoUnmarshal "image_generation.partial_succeeded"
      ["data: " ++ payloadUsage] ["data: [DONE]"] blankLine64K
      (eventOf_blankLine64K demoUnmarshal)
    unfold partialEvents streamNoImageLongLine
    rw [show ["data: " ++ payloadUsage, blankLine64K, "data: [DONE]"] =
      ["data: " ++ payloadUsage] ++ blankLine64K :: ["data: [DONE]"] from rfl, h]
    decide
  · rw [hparse]
    decide

theorem scanLine_tolerated (unmarshal : Unmarshal) (st : ScanState) (text : String)
    (h : Tolerated unmarshal text) : scanLine unmarshal st text = st := by
  unfold scanLine
  rcases h with h | ⟨hp, h | ⟨obj, hobj, hty⟩⟩
  · simp [h]
  · simp [hp, h]
  · simp only [hp, hobj, if_true]
    split_ifs with h1
    · rfl
    · cases hs : asString (List.lookup "type" obj) with
      | none => rfl
      | some ty =>
        obtain ⟨hn1, hn2⟩ := hty ty hs
        simp [hn1, hn2]

/-- C3 (as amended). Inserting a tolerated line shorter than 65536 bytes anywhere in a
stream leaves the outcome of the aggregation unchanged, result or failure alike; and a
malformed `data: ` line between two well-formed partial_succeeded lines, the three shorter
than 65536 bytes and read without error, gives exactly 2 images. -/
theorem parseSSEResponse_tolerated_line (unmarshal : Unmarshal) (before after : List String)
    (err : Option String) (text : String) (h : Tolerated unmarshal text)
    (hfit : text.utf8ByteSize < 65536) :
    parseSSEResponse unmarshal ⟨before ++ text :: after, err⟩ =
        parseSSEResponse unmarshal ⟨before ++ after, err⟩ ∧
    ∀ first second : String,
      first.utf8ByteSize < 65536 → second.utf8ByteSize < 65536 →
      (partialImage unmarshal first).isSome = true →
      (partialImage unmarshal second).isSome = true →
      hasPrefix (trimSpace text) "data: " = true →
      unmarshal (trimPrefix (trimSpace text) "data: ") = none →
      ∃ r, parseSSEResponse unmarshal ⟨[first, text, second], none⟩ = (some r, none) ∧
        r.Data.length = 2 := by
  constructor
  · exact parseSSEResponse_insert_skipped unmarshal before after err text hfit
      (fun st => scanLine_tolerated unmarshal st text h)
  · intro first second hf1 hf2 h1 h2 _ _
    obtain ⟨a, ha⟩ := Option.isSome_iff_exists.mp h1
    obtain ⟨b, hb⟩ := Option.isSome_iff_exists.mp h2
    have himg := foldl_scanLine_images unmarshal [first, text, second] ScanState.init
    have htol : partialImage unmarshal text = none := by
      have := scanLine_images unmarshal ScanState.init text
      rw [scanLine_tolerated unmarshal _ text h] at this
      cases hpi : partialImage unmarshal text with
      | none => rfl
      | some x => rw [hpi] at this; simp [ScanState.init] at this
    simp only [List.filterMap_cons, List.filterMap_nil, ha, hb, htol, ScanState.init,
      List.nil_append] at himg
    refine ⟨{ (List.foldl (scanLine unmarshal) ScanState.init [first, text, second]).imageResp
      with Data := [a, b] }, ?_, rfl⟩
    have hall : ∀ line ∈ [first, text, second], line.utf8ByteSize < 65536 := by
      intro line hl
      simp only [List.mem_cons, List.mem_singleton, List.not_mem_nil, or_false] at hl
      rcases hl with hl | hl | hl <;> rw [hl] <;> assumption
    rw [parseSSEResponse_of_fit unmarshal ⟨[first, text, second], none⟩ hall]
    simp only [ScanState.init, himg]
    rfl

/-- C3, witness of the amended statement: a malformed `data: ` line between two well-formed
partial_succeeded lines. -/
theorem parseSSEResponse_tolerated_line_witness :
    parseSSEResponse demoUnmarshal
        ⟨["data: " ++ payloadNoID] ++ "data: \x7boops" :: ["data: " ++ payloadSecond], none⟩ =
      parseSSEResponse demoUnmarshal
        ⟨["data: " ++ payloadNoID] ++ ["data: " ++ payloadSecond], none⟩ ∧
    ∃ r, parseSSEResponse demoUnmarshal
        ⟨["data: " ++ payloadNoID, "data: \x7boops", "data: " ++ payloadSecond], none⟩ =
          (some r, none) ∧ r.Data.length = 2 :=
  have h := parseSSEResponse_tolerated_line demoUnmarshal ["data: " ++ payloadNoID]
    ["data: " ++ payloadSecond] none "data: \x7boops" (Or.inr ⟨by decide, Or.inl rfl⟩)
    (by decide)
  ⟨h.1, h.2 _ _ (by decide) (by decide) (by decide) (by decide) (by decide) rfl⟩

/-- C3, counterexample to the claim as stated: a blank line of 65536 bytes is empty once
trimmed, and inserted between two well-formed partial_succeeded lines, which alone give 2
images, it makes the method fail. -/
theorem parseSSEResponse_long_blank_line_inserted :
    Tolerated demoUnmarshal blankLine64K ∧
    blankLine64K.utf8ByteSize = 65536 ∧
    (parseSSEResponse demoUnmarshal
      ⟨["data: " ++ payloadFull] ++ ["data: " ++ payloadSecond], none⟩).1.map
        (fun r => r.Data.length) = some 2 ∧
    parseSSEResponse demoUnmarshal
      ⟨["data: " ++ payloadFull] ++ blankLine64K :: ["data: " ++ payloadSecond], none⟩ =
        (none, some "error reading SSE stream: bufio.Scanner: token too long") := by
  refine ⟨Or.inl trimSpace_blankLine64K, utf8ByteSize_spaces 65536, by decide, ?_⟩
  exact parseSSEResponse_of_long_line demoUnmarshal _
    ⟨blankLine64K, List.mem_append_right _ (List.mem_cons_self _ _), fitsBuffer_blankLine64K⟩

theorem onCompleted_header (st : ScanState) (obj : JSONObject) :
    (onCompleted st obj).imageResp.ID = st.imageResp.ID ∧
    (onCompleted st obj).imageResp.Model = st.imageResp.Model ∧
    (onCompleted st obj).imageResp.Created = st.imageResp.Created := by
  unfold onCompleted
  cases h : asObject (List.lookup "usage" obj) <;> simp

theorem onPartialSucceeded_seeded (st : ScanState) (obj : JSONObject)
    (h : st.imageResp.ID ≠ "") : (onPartialSucceeded st obj).imageResp = st.imageResp := by
  unfold onPartialSucceeded
  simp [h]

theorem onPartialSucceeded_unseeded (st : ScanState) (obj : JSONObject)
    (hid : st.imageResp.ID = "") (hmodel : st.imageResp.Model = "")
    (hcreated : st.imageResp.Created = 0) :
    (onPartialSucceeded st obj).imageResp.ID = (idOfEvent obj).getD "" ∧
    (onPartialSucceeded st obj).imageResp.Model = (modelOfEvent obj).getD "" ∧
    (onPartialSucceeded st obj).imageResp.Created = (createdOfEvent obj).getD 0 := by
  unfold onPartialSucceeded idOfEvent modelOfEvent createdOfEvent
  simp only [hid, if_true]
  cases h1 : asString (List.lookup "id" obj) <;>
    cases h2 : asString (List.lookup "model" obj) <;>
      cases h3 : asFloat64 (List.lookup "created" obj) <;>
        simp [hid, hmodel, hcreated]

/-- Once the identifier is set, no line changes identifier, model or timestamp. -/
theorem foldl_scanLine_seeded (unmarshal : Unmarshal) (lines : List String) (st : ScanState)
    (h : st.imageResp.ID ≠ "") :
    (lines.foldl (scanLine unmarshal) st).imageResp.ID = st.imageResp.ID ∧
    (lines.foldl (scanLine unmarshal) st).imageResp.Model = st.imageResp.Model ∧
    (lines.foldl (scanLine unmarshal) st).imageResp.Created = st.imageResp.Created := by
  induction lines generalizing st with
  | nil => simp
  | cons text rest ih =>
    rw [List.foldl_cons]
    have hstep : (scanLine unmarshal st text).imageResp.ID = st.imageResp.ID ∧
        (scanLine unmarshal st text).imageResp.Model = st.imageResp.Model ∧
        (scanLine unmarshal st text).imageResp.Created = st.imageResp.Created := by
      rw [scanLine_eq_eventOf]
      cases hev : eventOf unmarshal text with
      | none => simp
      | some p =>
        obtain ⟨ty, obj⟩ := p
        by_cases h1 : ty = "image_generation.partial_succeeded"
        · simp [h1, onPartialSucceeded_seeded st obj h]
        · by_cases h2 : ty = "image_generation.completed"
          · simpa [h1, h2] using onCompleted_header st obj
          · simp [h1, h2]
    have hne : (scanLine unmarshal st text).imageResp.ID ≠ "" := by rw [hstep.1]; exact h
    obtain ⟨i1, i2, i3⟩ := ih (scanLine unmarshal st text) hne
    exact ⟨i1.trans hstep.1, i2.trans hstep.2.1, i3.trans hstep.2.2⟩

/-- From a state whose header is still unset, the first partial_succeeded event with a
non-empty id fixes the header. -/
theorem foldl_scanLine_header (unmarshal : Unmarshal) (lines : List String) (st : ScanState)
    (first : JSONObject) (later : List JSONObject) (id : String)
    (hid : st.imageResp.ID = "") (hmodel : st.imageResp.Model = "")
    (hcreated : st.imageResp.Created = 0)
    (hev : partialEvents unmarshal lines = first :: later)
    (hfirst : idOfEvent first = some id) (hne : id ≠ "") :
    (lines.foldl (scanLine unmarshal) st).imageResp.ID = id ∧
    (lines.foldl (scanLine unmarshal) st).imageResp.Model = (modelOfEvent first).getD "" ∧
    (lines.foldl (scanLine unmarshal) st).imageResp.Created =
      (createdOfEvent first).getD 0 := by
  induction lines generalizing st with
  | nil => simp [partialEvents, eventsOfType] at hev
  | cons text rest ih =>
    rw [List.foldl_cons]
    unfold partialEvents eventsOfType at hev
    rw [List.filterMap_cons] at hev
    rw [scanLine_eq_eventOf]
    cases hevt : eventOf unmarshal text with
    | none =>
      simp only [hevt] at hev
      exact ih st hid hmodel hcreated hev
    | some p =>
      obtain ⟨ty, obj⟩ := p
      simp only [hevt] at hev
      by_cases h1 : ty = "image_generation.partial_succeeded"
      · simp only [h1, if_true, List.cons.injEq] at hev
        obtain ⟨hobj, _⟩ := hev
        subst hobj
        simp only [h1, if_true]
        obtain ⟨s1, s2, s3⟩ := onPartialSucceeded_unseeded st obj hid hmodel hcreated
        rw [hfirst] at s1
        simp only [Option.getD_some] at s1
        have hne2 : (onPartialSucceeded st obj).imageResp.ID ≠ "" := by rw [s1]; exact hne
        obtain ⟨i1, i2, i3⟩ := foldl_scanLine_seeded unmarshal rest _ hne2
        exact ⟨i1.trans s1, i2.trans s2, i3.trans s3⟩
      · simp only [h1, if_false] at hev
        by_cases h2 : ty = "image_generation.completed"
        · simp only [h1, h2, if_false, if_true]
          obtain ⟨c1, c2, c3⟩ := onCompleted_header st obj
          exact ih _ (c1.trans hid) (c2.trans hmodel) (c3.trans hcreated) hev
        · simp only [h1, h2, if_false]
          exact ih st hid hmodel hcreated hev

theorem parseSSEResponse_success (unmarshal : Unmarshal) (body : SSEBody)
    (r : ImageGenerationResponse) (h : (parseSSEResponse unmarshal body).1 = some r) :
    r = { (body.lines.foldl (scanLine unmarshal) ScanState.init).imageResp with
      Data := (body.lines.foldl (scanLine unmarshal) ScanState.init).images } := by
  obtain ⟨hfit, herr⟩ := fit_of_success unmarshal body r h
  rw [parseSSEResponse_of_fit unmarshal body hfit] at h
  simp only [herr] at h
  by_cases h0 : (List.foldl (scanLine unmarshal) ScanState.init body.lines).images.length = 0
  · simp [h0] at h
  · simp only [h0, if_false, Option.some.injEq] at h
    exact h.symm

/-- C4 (as amended). When the first partial_succeeded event of a stream carries a non-empty
string id, a successful aggregation returns the identifier of that event, its model (empty
when it carries none) and its creation timestamp (zero when it carries none), whatever the
later events carry. -/
theorem parseSSEResponse_header_first_writer (unmarshal : Unmarshal) (body : SSEBody)
    (r : ImageGenerationResponse) (first : JSONObject) (later : List JSONObject) (id : String)
    (hok : (parseSSEResponse unmarshal body).1 = some r)
    (hev : partialEvents unmarshal body.lines = first :: later)
    (hfirst : idOfEvent first = some id) (hne : id ≠ "") :
    r.ID = id ∧ r.Model = (modelOfEvent first).getD "" ∧
      r.Created = (createdOfEvent first).getD 0 := by
  rw [parseSSEResponse_success unmarshal body r hok]
  exact foldl_scanLine_header unmarshal body.lines ScanState.init first later id rfl rfl rfl
    hev hfirst hne


/-- C4, witness of the amended statement: the header of `streamTwoImages` is that of its
first event. -/
theorem parseSSEResponse_header_first_writer_witness :
    (ImageGenerationResponse.mk "id0" "list" 7 "m0"
        [⟨"u0", "", "rp0"⟩, ⟨"u2", "", ""⟩] ⟨0, 0, 0⟩).ID = "id0" ∧
      (ImageGenerationResponse.mk "id0" "list" 7 "m0"
        [⟨"u0", "", "rp0"⟩, ⟨"u2", "", ""⟩] ⟨0, 0, 0⟩).Model = "m0" ∧
      (ImageGenerationResponse.mk "id0" "list" 7 "m0"
        [⟨"u0", "", "rp0"⟩, ⟨"u2", "", ""⟩] ⟨0, 0, 0⟩).Created = 7 :=
  parseSSEResponse_header_first_writer demoUnmarshal ⟨streamTwoImages, none⟩ _
    [("type", .string "image_generation.partial_succeeded"), ("url", .string "u0"),
      ("id", .string "id0"), ("model", .string "m0"), ("created", .number ⟨7, 0⟩),
      ("revised_prompt", .string "rp0")]
    [[("type", .string "image_generation.partial_succeeded"), ("url", .string "u2"),
      ("id", .string "id2"), ("model", .string "m2"), ("created", .number ⟨2, 0⟩)]]
    "id0" (by decide) rfl rfl (by decide)

/-- C4, counterexample to the claim as stated: the first partial_succeeded event of
`streamFirstWithoutID` carries model `m1` and timestamp 1 and no id; the aggregation succeeds
and returns the id, the model `m2` and the timestamp 2 of the second event. -/
theorem parseSSEResponse_header_overwritten :
    ∃ r first later,
      parseSSEResponse demoUnmarshal ⟨streamFirstWithoutID, none⟩ = (some r, none) ∧
      partialEvents demoUnmarshal streamFirstWithoutID = first :: later ∧
      idOfEvent first = none ∧ modelOfEvent first = some "m1" ∧ createdOfEvent first = some 1 ∧
      r.ID = "id2" ∧ r.Model = "m2" ∧ r.Created = 2 ∧
      r.Model ≠ (modelOfEvent first).getD "" ∧ r.Created ≠ (createdOfEvent first).getD 0 :=
  ⟨_, _, _, rfl, rfl, rfl, rfl, rfl, rfl, rfl, rfl, by decide, by decide⟩

theorem onPartialSucceeded_usage (st : ScanState) (obj : JSONObject) :
    (onPartialSucceeded st obj).imageResp.Usage = st.imageResp.Usage := by
  unfold onPartialSucceeded
  by_cases h : st.imageResp.ID = ""
  · simp only [h, if_true]
    cases asString (List.lookup "id" obj) <;> cases asString (List.lookup "model" obj) <;>
      cases asFloat64 (List.lookup "created" obj) <;> rfl
  · simp [h]

theorem onCompleted_usage (st : ScanState) (obj : JSONObject) :
    (onCompleted st obj).imageResp.Usage = (usageOfEvent obj).getD st.imageResp.Usage := by
  unfold onCompleted usageOfEvent
  cases h : asObject (List.lookup "usage" obj) with
  | none => simp
  | some usageData =>
    simp only [Option.map_some', Option.getD_some]
    cases h1 : asFloat64 (List.lookup "generated_images" usageData) <;>
      cases h2 : asFloat64 (List.lookup "output_tokens" usageData) <;>
        cases h3 : asFloat64 (List.lookup "total_tokens" usageData) <;> simp

theorem scanLine_usage (unmarshal : Unmarshal) (st : ScanState) (text : String) :
    (scanLine unmarshal st text).imageResp.Usage =
      (usageOfLine unmarshal text).getD st.imageResp.Usage := by
  rw [scanLine_eq_eventOf]
  unfold usageOfLine
  cases hevt : eventOf unmarshal text with
  | none => rfl
  | some p =>
    obtain ⟨ty, obj⟩ := p
    by_cases h2 : ty = "image_generation.completed"
    · subst h2
      simp [onCompleted_usage]
    · by_cases h1 : ty = "image_generation.partial_succeeded"
      · subst h1
        simp [onPartialSucceeded_usage]
      · simp [h1, h2]

theorem filterMap_usageOfLine (unmarshal : Unmarshal) (lines : List String) :
    lines.filterMap (usageOfLine unmarshal) =
      (completedEvents unmarshal lines).filterMap usageOfEvent := by
  unfold completedEvents eventsOfType
  induction lines with
  | nil => rfl
  | cons text rest ih =>
    rw [List.filterMap_cons, List.filterMap_cons, ih]
    unfold usageOfLine
    cases hevt : eventOf unmarshal text with
    | none => rfl
    | some p =>
      obtain ⟨ty, obj⟩ := p
      by_cases h2 : ty = "image_generation.completed"
      · simp only [h2, if_true, List.filterMap_cons]
      · simp only [h2, if_false]

/-- The usage after a run of lines is that of the last completed event with a usage object,
and the usage before the run when there is none. -/
theorem foldl_scanLine_usage (unmarshal : Unmarshal) (lines : List String) (st : ScanState) :
    (lines.foldl (scanLine unmarshal) st).imageResp.Usage =
      (((completedEvents unmarshal lines).filterMap usageOfEvent).getLast?).getD
        st.imageResp.Usage := by
  rw [← filterMap_usageOfLine]
  induction lines generalizing st with
  | nil => rfl
  | cons text rest ih =>
    rw [List.foldl_cons, ih, scanLine_usage, List.filterMap_cons]
    cases usageOfLine unmarshal text with
    | none => rfl
    | some us => rw [List.getLast?_cons]; rfl

/-- C5 (as amended). After a successful aggregation the three usage counters are those of
the last completed event that carries a `usage` object, a counter that object lacks being
zero and nothing of an earlier event being retained; they are zero when no completed event
carries a `usage` object, in particular when the stream has no completed event. -/
theorem parseSSEResponse_usage_last_writer (unmarshal : Unmarshal) (body : SSEBody)
    (r : ImageGenerationResponse) (hok : (parseSSEResponse unmarshal body).1 = some r) :
    r.Usage = (((completedEvents unmarshal body.lines).filterMap usageOfEvent).getLast?).getD
        ⟨0, 0, 0⟩ ∧
      (completedEvents unmarshal body.lines = [] → r.Usage = ⟨0, 0, 0⟩) := by
  rw [parseSSEResponse_success unmarshal body r hok]
  have h := foldl_scanLine_usage unmarshal body.lines ScanState.init
  refine ⟨h, fun hnone => ?_⟩
  rw [hnone] at h
  exact h

/-- C5, witness of the amended statement on `streamWithUsage`. -/
theorem parseSSEResponse_usage_last_writer_witness :
    (ImageGenerationResponse.mk "id0" "list" 7 "m0" [⟨"u0", "", "rp0"⟩] ⟨1, 2, 3⟩).Usage =
      (((completedEvents demoUnmarshal streamWithUsage).filterMap usageOfEvent).getLast?).getD
        ⟨0, 0, 0⟩ :=
  (parseSSEResponse_usage_last_writer demoUnmarshal ⟨streamWithUsage, none⟩ _ (by decide)).1

/-- C5, counterexample to the claim as stated: `streamLastWithoutUsage` has two completed
events, the last one without a `usage` object; the aggregation succeeds and the result keeps
the counters 1, 2, 3 of the earlier completed event. -/
theorem parseSSEResponse_usage_retained :
    ∃ r, parseSSEResponse demoUnmarshal ⟨streamLastWithoutUsage, none⟩ = (some r, none) ∧
      (completedEvents demoUnmarshal streamLastWithoutUsage).length = 2 ∧
      ((completedEvents demoUnmarshal streamLastWithoutUsage).getLast?).bind usageOfEvent
        = none ∧
      ((completedEvents demoUnmarshal streamLastWithoutUsage).head?).bind usageOfEvent
        = some ⟨1, 2, 3⟩ ∧
      r.Usage = ⟨1, 2, 3⟩ :=
  ⟨_, rfl, rfl, rfl, rfl, rfl⟩


/-! ## The job store -/

theorem lookup_cons_eq (k' key : String) (v : Task) (rest : List (String × Task)) :
    List.lookup k' ((key, v) :: rest) = if k' = key then some v else List.lookup k' rest := by
  by_cases h : k' = key
  · subst h
    simp [List.lookup]
  · have hne : (k' == key) = false := by simpa using h
    simp only [List.lookup, hne, h, if_false]

theorem lookup_mapModify (m : List (String × Task)) (k k' : String) (f : Task → Task) :
    (mapModify m k f).lookup k' = if k' = k then (m.lookup k').map f else m.lookup k' := by
  induction m with
  | nil => simp [mapModify]
  | cons p rest ih =>
    obtain ⟨key, task⟩ := p
    have hcons : mapModify ((key, task) :: rest) k f =
        (if key = k then (key, f task) else (key, task)) :: mapModify rest k f := rfl
    rw [hcons]
    by_cases hk : key = k
    · rw [if_pos hk, lookup_cons_eq, lookup_cons_eq, ih]
      by_cases hk' : k' = key
      · simp [hk', hk]
      · simp [hk']
    · rw [if_neg hk, lookup_cons_eq, lookup_cons_eq, ih]
      by_cases hk' : k' = key
      · have : ¬ k' = k := fun e => hk (hk'.symm.trans e)
        simp [hk', hk]
      · simp [hk']

theorem lookup_filter_ne (m : List (String × Task)) (k k' : String) (h : ¬ k' = k) :
    (m.filter fun p => p.1 ≠ k).lookup k' = m.lookup k' := by
  induction m with
  | nil => rfl
  | cons p rest ih =>
    obtain ⟨key, task⟩ := p
    by_cases hkey : key = k
    · rw [List.filter_cons_of_neg (by simp [hkey]), ih, lookup_cons_eq]
      have : ¬ k' = key := fun e => h (e.trans hkey)
      rw [if_neg this]
    · rw [List.filter_cons_of_pos (by simp [hkey]), lookup_cons_eq, lookup_cons_eq, ih]

theorem lookup_mapAssign (m : List (String × Task)) (k k' : String) (v : Task) :
    (mapAssign m k v).lookup k' = if k' = k then some v else m.lookup k' := by
  unfold mapAssign
  rw [lookup_cons_eq]
  by_cases hk' : k' = k
  · rw [if_pos hk', if_pos hk']
  · rw [if_neg hk', if_neg hk', lookup_filter_ne m k k' hk']

theorem mapModify_mapModify (m : List (String × Task)) (k : String) (f g : Task → Task) :
    mapModify (mapModify m k f) k g = mapModify m k (fun task => g (f task)) := by
  unfold mapModify
  rw [List.map_map]
  apply List.map_congr_left
  intro p _
  by_cases h : p.1 = k
  · simp [h]
  · simp [h]

theorem mapModify_of_not_key (m : List (String × Task)) (k : String) (f : Task → Task)
    (h : k ∉ m.map Prod.fst) : mapModify m k f = m := by
  unfold mapModify
  induction m with
  | nil => rfl
  | cons p rest ih =>
    have hp : p.1 ≠ k := fun e => h (by simp [e])
    have hrest : k ∉ rest.map Prod.fst := fun e => h (by simp only [List.map_cons]; exact List.mem_cons_of_mem _ e)
    simp only [List.map_cons, hp, if_false, ih hrest]

theorem lookup_of_not_key (m : List (String × Task)) (k : String)
    (h : k ∉ m.map Prod.fst) : m.lookup k = none := by
  induction m with
  | nil => rfl
  | cons p rest ih =>
    obtain ⟨key, task⟩ := p
    have hp : k ≠ key := fun e => h (by simp [e])
    have hne : (k == key) = false := by simpa using hp
    have hrest : k ∉ rest.map Prod.fst := fun e => h (by simp only [List.map_cons]; exact List.mem_cons_of_mem _ e)
    simp only [List.lookup, hne]
    exact ih hrest

theorem getTask_updateTaskStatus (tm : TaskManager) (k k' : String) (status : TaskStatus)
    (now : Int) :
    ((tm.UpdateTaskStatus k status now).GetTask k').1 =
      if k' = k then ((tm.GetTask k').1).map
        (fun task => { task with Status := status, UpdatedAt := now })
      else (tm.GetTask k').1 := by
  simp only [TaskManager.UpdateTaskStatus, TaskManager.GetTask, lookup_mapModify]

theorem getTask_updateTaskResult (tm : TaskManager) (k k' : String)
    (result : Option ImageGenerationResponse) (now : Int) :
    ((tm.UpdateTaskResult k result now).GetTask k').1 =
      if k' = k then ((tm.GetTask k').1).map
        (fun task => { task with Status := .Completed, Result := result, UpdatedAt := now })
      else (tm.GetTask k').1 := by
  simp only [TaskManager.UpdateTaskResult, TaskManager.GetTask, lookup_mapModify]

theorem getTask_updateTaskError (tm : TaskManager) (k k' : String) (errorMsg : String)
    (now : Int) :
    ((tm.UpdateTaskError k errorMsg now).GetTask k').1 =
      if k' = k then ((tm.GetTask k').1).map
        (fun task => { task with Status := .Failed, Error := errorMsg, UpdatedAt := now })
      else (tm.GetTask k').1 := by
  simp only [TaskManager.UpdateTaskError, TaskManager.GetTask, lookup_mapModify]

theorem getTask_createTask (tm : TaskManager) (prompt : String) (c1 c2 c3 : Int)
    (k' : String) :
    (((tm.CreateTask prompt c1 c2 c3).2).GetTask k').1 =
      if k' = generateTaskID c1 then some (tm.CreateTask prompt c1 c2 c3).1
      else (tm.GetTask k').1 := by
  simp only [TaskManager.CreateTask, TaskManager.GetTask, lookup_mapAssign]

/-- A call addressed to another key leaves the job as it is. -/
theorem getTask_apply_of_key_ne (op : StoreOp) (tm : TaskManager) (taskID : String)
    (h : op.key ≠ taskID) : ((op.apply tm).GetTask taskID).1 = (tm.GetTask taskID).1 := by
  have h' : ¬ taskID = op.key := fun e => h e.symm
  cases op with
  | createTask prompt c1 c2 c3 =>
    simp only [StoreOp.key] at h'
    simp only [StoreOp.apply, getTask_createTask, h', if_false]
  | updateTaskStatus k status now =>
    simp only [StoreOp.key] at h'
    simp only [StoreOp.apply, getTask_updateTaskStatus, h', if_false]
  | updateTaskResult k result now =>
    simp only [StoreOp.key] at h'
    simp only [StoreOp.apply, getTask_updateTaskResult, h', if_false]
  | updateTaskError k errorMsg now =>
    simp only [StoreOp.key] at h'
    simp only [StoreOp.apply, getTask_updateTaskError, h', if_false]

/-- C6 (as amended). For a job present in the store, `UpdateTaskResult(id, r)` leaves it with
status Completed, result `r` and the error message it held before; `UpdateTaskError(id, m)`
leaves it with status Failed, error message `m` and the result it held before.  So the job
holds one outcome only when it held none before the call. -/
theorem update_sets_one_outcome_keeps_other (tm : TaskManager) (taskID : String) (task : Task)
    (result : Option ImageGenerationResponse) (errorMsg : String) (now : Int)
    (h : (tm.GetTask taskID).1 = some task) :
    (∃ job, ((tm.UpdateTaskResult taskID result now).GetTask taskID).1 = some job ∧
      job.Status = .Completed ∧ job.Result = result ∧ job.Error = task.Error) ∧
    (∃ job, ((tm.UpdateTaskError taskID errorMsg now).GetTask taskID).1 = some job ∧
      job.Status = .Failed ∧ job.Error = errorMsg ∧ job.Result = task.Result) ∧
    (task.Error = "" → ∃ job,
      ((tm.UpdateTaskResult taskID result now).GetTask taskID).1 = some job ∧ job.Error = "") ∧
    (task.Result = none → ∃ job,
      ((tm.UpdateTaskError taskID errorMsg now).GetTask taskID).1 = some job ∧
        job.Result = none) := by
  rw [getTask_updateTaskResult, getTask_updateTaskError, h]
  simp only [if_true, Option.map_some']
  exact ⟨⟨_, rfl, rfl, rfl, rfl⟩, ⟨_, rfl, rfl, rfl, rfl⟩, fun he => ⟨_, rfl, he⟩,
    fun hr => ⟨_, rfl, hr⟩⟩

/-- C6, witness of the amended statement on the store with a failed job. -/
theorem update_sets_one_outcome_keeps_other_witness :
    ∃ job, ((storeWithFailedJob.UpdateTaskResult "task_1" (some oneImageResult) 3).GetTask
        "task_1").1 = some job ∧
      job.Status = .Completed ∧ job.Result = some oneImageResult ∧ job.Error = "boom" :=
  (update_sets_one_outcome_keeps_other storeWithFailedJob "task_1"
    ⟨"task_1", .Failed, "a red balloon", none, "boom", 1, 2⟩ (some oneImageResult) "" 3
    (by decide)).1

/-- C6, counterexample to the claim as stated: a failed job keeps its error message `boom`
through `UpdateTaskResult` and then holds a result and an error; a completed job keeps its
result through `UpdateTaskError`. -/
theorem update_keeps_other_outcome :
    (((storeWithFailedJob.UpdateTaskResult "task_1" (some oneImageResult) 3).GetTask
        "task_1").1).map (fun job => (job.Status, job.Result, job.Error)) =
      some (.Completed, some oneImageResult, "boom") ∧
    (((storeWithCompletedJob.UpdateTaskError "task_1" "late failure" 3).GetTask
        "task_1").1).map (fun job => (job.Status, job.Result, job.Error)) =
      some (.Failed, some oneImageResult, "late failure") := by
  decide

/-- C7 (as amended). The store does not make terminal states absorbing.  For a job whose
status is Completed or Failed, a call addressed to another identifier (for `CreateTask`, one
that generates another identifier) leaves the status as it was; a call addressed to the
identifier of the job sets the status it is given: `UpdateTaskStatus(id, s)` sets `s`,
`UpdateTaskResult` sets Completed, `UpdateTaskError` sets Failed, and a `CreateTask` that
generates the same identifier puts a Pending job in its place. -/
theorem terminal_status_changes_only_by_own_calls (tm : TaskManager) (taskID : String)
    (task : Task) (h : (tm.GetTask taskID).1 = some task)
    (_hterminal : task.Status = .Completed ∨ task.Status = .Failed) :
    (∀ op : StoreOp, op.key ≠ taskID →
      (((op.apply tm).GetTask taskID).1).map Task.Status = some task.Status) ∧
    (∀ status now,
      (((tm.UpdateTaskStatus taskID status now).GetTask taskID).1).map Task.Status
        = some status) ∧
    (∀ result now,
      (((tm.UpdateTaskResult taskID result now).GetTask taskID).1).map Task.Status
        = some .Completed) ∧
    (∀ errorMsg now,
      (((tm.UpdateTaskError taskID errorMsg now).GetTask taskID).1).map Task.Status
        = some .Failed) ∧
    (∀ prompt c1 c2 c3, generateTaskID c1 = taskID →
      ((((tm.CreateTask prompt c1 c2 c3).2).GetTask taskID).1).map Task.Status
        = some .Pending) := by
  refine ⟨?_, ?_, ?_, ?_, ?_⟩
  · intro op hop
    rw [getTask_apply_of_key_ne op tm taskID hop, h]
    rfl
  · intro status now
    rw [getTask_updateTaskStatus, h]
    simp
  · intro result now
    rw [getTask_updateTaskResult, h]
    simp
  · intro errorMsg now
    rw [getTask_updateTaskError, h]
    simp
  · intro prompt c1 c2 c3 hid
    rw [getTask_createTask, if_pos hid.symm]
    rfl

/-- C7, witness of the amended statement on the store with a completed job. -/
theorem terminal_status_changes_only_by_own_calls_witness :
    (((storeWithCompletedJob.UpdateTaskStatus "task_1" .Processing 5).GetTask "task_1").1).map
      Task.Status = some .Processing :=
  (terminal_status_changes_only_by_own_calls storeWithCompletedJob "task_1"
    ⟨"task_1", .Completed, "a red balloon", some oneImageResult, "", 1, 2⟩ (by decide)
    (Or.inl rfl)).2.1 .Processing 5

/-- C7, counterexample to the claim as stated: a Completed job is Pending after
`UpdateTaskStatus(id, Pending)` and Failed after `UpdateTaskError`. -/
theorem terminal_status_left :
    ((storeWithCompletedJob.GetTask "task_1").1).map Task.Status = some .Completed ∧
    (((storeWithCompletedJob.UpdateTaskStatus "task_1" .Pending 3).GetTask "task_1").1).map
      Task.Status = some .Pending ∧
    (((storeWithCompletedJob.UpdateTaskError "task_1" "late failure" 3).GetTask
      "task_1").1).map Task.Status = some .Failed := by
  decide

/-- C10. For an identifier that is the key of no job, `GetTask` reports that the task does
not exist, `GetImageTask` answers with the NotFound status, and `UpdateTaskStatus`,
`UpdateTaskResult` and `UpdateTaskError` return the store they were given. -/
theorem unknown_identifier (tm : TaskManager) (taskID : String) (status : TaskStatus)
    (result : Option ImageGenerationResponse) (errorMsg : String) (now : Int)
    (h : taskID ∉ tm.tasks.map Prod.fst) :
    tm.GetTask taskID = (none, false) ∧
    ImageService.GetImageTask tm taskID =
      (none, some { code := .NotFound, message := "Task not found" }) ∧
    tm.UpdateTaskStatus taskID status now = tm ∧
    tm.UpdateTaskResult taskID result now = tm ∧
    tm.UpdateTaskError taskID errorMsg now = tm := by
  have hget : tm.GetTask taskID = (none, false) := by
    simp only [TaskManager.GetTask, lookup_of_not_key tm.tasks taskID h]
    rfl
  refine ⟨hget, ?_, ?_, ?_, ?_⟩
  · simp only [ImageService.GetImageTask, hget]
  · simp only [TaskManager.UpdateTaskStatus, mapModify_of_not_key tm.tasks taskID _ h]
  · simp only [TaskManager.UpdateTaskResult, mapModify_of_not_key tm.tasks taskID _ h]
  · simp only [TaskManager.UpdateTaskError, mapModify_of_not_key tm.tasks taskID _ h]

/-- C10, witness: an identifier never issued, against the store with a completed job. -/
theorem unknown_identifier_witness :
    storeWithCompletedJob.GetTask "task_404" = (none, false) ∧
    ImageService.GetImageTask storeWithCompletedJob "task_404" =
      (none, some { code := .NotFound, message := "Task not found" }) ∧
    storeWithCompletedJob.UpdateTaskStatus "task_404" .Processing 9 = storeWithCompletedJob ∧
    storeWithCompletedJob.UpdateTaskResult "task_404" none 9 = storeWithCompletedJob ∧
    storeWithCompletedJob.UpdateTaskError "task_404" "x" 9 = storeWithCompletedJob :=
  unknown_identifier storeWithCompletedJob "task_404" .Processing none "x" 9 (by decide)


/-! ## The job orchestrator -/

theorem append_ne_empty (a b : String) (h : a ≠ "") : a ++ b ≠ "" := by
  intro hab
  apply h
  have hd := congrArg String.data hab
  rw [String.data_append] at hd
  have ha : a.data = [] := (List.append_eq_nil.mp hd).1
  exact String.ext ha

/-- The two shapes of the result pair of `parseSSEResponse`. -/
theorem parseSSEResponse_outcome (unmarshal : Unmarshal) (body : SSEBody) :
    (∃ r, parseSSEResponse unmarshal body = (some r, none)) ∨
    (∃ e, parseSSEResponse unmarshal body = (none, some e) ∧ e ≠ "") := by
  rw [parseSSEResponse_eq]
  cases body.scanErr with
  | some e => exact Or.inr ⟨_, rfl, append_ne_empty _ _ (by decide)⟩
  | none =>
    by_cases h0 : ((body.lines.takeWhile fitsBuffer).foldl (scanLine unmarshal)
        ScanState.init).images.length = 0
    · simp only [h0, if_true]
      exact Or.inr ⟨_, rfl, by decide⟩
    · simp only [h0, if_false]
      exact Or.inl ⟨_, rfl⟩

/-- The two shapes of the result pair of `GenerateImage`: a non-nil response without error,
or no response with an error whose message is not empty. -/
theorem generateImage_outcome (config : ImageClientConfig) (unmarshal : Unmarshal)
    (transport : Transport) (req : ImageGenerationRequest) :
    (∃ r, ImageClient.GenerateImage config unmarshal transport req = (some r, none)) ∨
    (∃ e, ImageClient.GenerateImage config unmarshal transport req = (none, some e) ∧
      e ≠ "") := by
  simp only [ImageClient.GenerateImage]
  cases ht : transport (applyDefaults config req) with
  | marshalError err => exact Or.inr ⟨_, rfl, append_ne_empty _ _ (by decide)⟩
  | requestError err => exact Or.inr ⟨_, rfl, append_ne_empty _ _ (by decide)⟩
  | sendError err => exact Or.inr ⟨_, rfl, append_ne_empty _ _ (by decide)⟩
  | response statusCode raw body =>
    by_cases hs : statusCode ≠ 200
    · simp only []
      rw [if_pos hs]
      exact Or.inr ⟨_, rfl, append_ne_empty _ _ (append_ne_empty _ _
        (append_ne_empty _ _ (by decide)))⟩
    · simp only []
      rw [if_neg hs]
      rcases parseSSEResponse_outcome unmarshal body with ⟨r, hr⟩ | ⟨e, he, _⟩
      · rw [hr]
        exact Or.inl ⟨r, rfl⟩
      · rw [he]
        exact Or.inr ⟨_, rfl, append_ne_empty _ _ (by decide)⟩


theorem generateImageAsync_of_valid (tm : TaskManager) (req : GenerateImageRequest)
    (idClock createdClock updatedClock : Int)
    (hvalid : ImageService.validateGenerateImageRequest req = none) :
    ImageService.GenerateImageAsync tm req idClock createdClock updatedClock =
      ((some (GenerateImageAsyncResponse.mk (generateTaskID idClock) .TASK_STATUS_PENDING
          createdClock), none),
        (tm.CreateTask req.Prompt idClock createdClock updatedClock).2,
        some (tm.CreateTask req.Prompt idClock createdClock updatedClock).1) := by
  simp only [ImageService.GenerateImageAsync, hvalid]
  rfl

/-- The assignments of a call, made one after the other, give the store the method gives. -/
theorem foldl_assignments (op : StoreOp) (tm : TaskManager) :
    op.assignments.foldl (fun tm a => a.apply tm) tm = op.apply tm := by
  cases op with
  | createTask prompt c1 c2 c3 => rfl
  | updateTaskStatus k status now =>
    simp only [StoreOp.assignments, List.foldl, Assignment.apply, StoreOp.apply,
      TaskManager.UpdateTaskStatus, mapModify_mapModify]
  | updateTaskResult k result now =>
    simp only [StoreOp.assignments, List.foldl, Assignment.apply, StoreOp.apply,
      TaskManager.UpdateTaskResult, mapModify_mapModify]
  | updateTaskError k errorMsg now =>
    simp only [StoreOp.assignments, List.foldl, Assignment.apply, StoreOp.apply,
      TaskManager.UpdateTaskError, mapModify_mapModify]

/-- Every assignment of a call addresses the key of the call. -/
theorem assignment_key_of_mem (op : StoreOp) (a : Assignment) (h : a ∈ op.assignments) :
    a.key = op.key := by
  cases op with
  | createTask prompt c1 c2 c3 =>
    simp only [StoreOp.assignments, List.mem_singleton] at h
    subst h
    rfl
  | updateTaskStatus k status now =>
    simp only [StoreOp.assignments, List.mem_cons, List.mem_singleton, List.not_mem_nil,
      or_false] at h
    rcases h with h | h <;> subst h <;> rfl
  | updateTaskResult k result now =>
    simp only [StoreOp.assignments, List.mem_cons, List.mem_singleton, List.not_mem_nil,
      or_false] at h
    rcases h with h | h | h <;> subst h <;> rfl
  | updateTaskError k errorMsg now =>
    simp only [StoreOp.assignments, List.mem_cons, List.mem_singleton, List.not_mem_nil,
      or_false] at h
    rcases h with h | h | h <;> subst h <;> rfl

/-- The job after an assignment of a field. -/
theorem getTask_assignment (a : Assignment) (tm : TaskManager) (taskID : String) :
    ((a.apply tm).GetTask taskID).1 =
      match a with
      | .insertTask task => if taskID = task.ID then some task else (tm.GetTask taskID).1
      | .setStatus k status =>
        if taskID = k then ((tm.GetTask taskID).1).map fun task => { task with Status := status }
        else (tm.GetTask taskID).1
      | .setResult k result =>
        if taskID = k then ((tm.GetTask taskID).1).map fun task => { task with Result := result }
        else (tm.GetTask taskID).1
      | .setError k errorMsg =>
        if taskID = k then ((tm.GetTask taskID).1).map fun task => { task with Error := errorMsg }
        else (tm.GetTask taskID).1
      | .setUpdatedAt k now =>
        if taskID = k then ((tm.GetTask taskID).1).map fun task => { task with UpdatedAt := now }
        else (tm.GetTask taskID).1 := by
  cases a <;>
    simp only [Assignment.apply, TaskManager.GetTask, lookup_mapModify, lookup_mapAssign]

/-- An assignment addressed to another key leaves the job as it is. -/
theorem getTask_assignment_of_key_ne (a : Assignment) (tm : TaskManager) (taskID : String)
    (h : a.key ≠ taskID) : ((a.apply tm).GetTask taskID).1 = (tm.GetTask taskID).1 := by
  have h' : ¬ taskID = a.key := fun e => h e.symm
  rw [getTask_assignment]
  cases a <;> simp only [Assignment.key] at h' <;> simp only [h', if_false]

/-- Assignments addressed to other keys leave the job as it is, and at rest. -/
theorem assignmentTrace_of_key_ne (taskID : String) (assignments : List Assignment)
    (tm : TaskManager) (h : ∀ a ∈ assignments, a.key ≠ taskID) :
    assignmentTrace taskID tm assignments =
      List.replicate assignments.length ⟨true, (tm.GetTask taskID).1⟩ := by
  induction assignments generalizing tm with
  | nil => rfl
  | cons a rest ih =>
    have hkey : a.key ≠ taskID := h a (List.mem_cons_self _ _)
    have ha := getTask_assignment_of_key_ne a tm taskID hkey
    have hrest := ih (a.apply tm) fun b hb => h b (List.mem_cons_of_mem _ hb)
    have hd : decide (a.key ≠ taskID) = true := decide_eq_true hkey
    show JobState.mk (rest.isEmpty || decide (a.key ≠ taskID))
      ((a.apply tm).GetTask taskID).1 :: assignmentTrace taskID (a.apply tm) rest = _
    rw [hrest, ha, hd, Bool.or_true]
    rfl

/-- Calls addressed to other keys leave the job as it is, and at rest. -/
theorem callTrace_of_other_keys (taskID : String) (ops : List StoreOp) (tm : TaskManager)
    (h : ∀ op ∈ ops, op.key ≠ taskID) :
    callTrace taskID tm ops =
        List.replicate (ops.flatMap StoreOp.assignments).length
          ⟨true, (tm.GetTask taskID).1⟩ ∧
      ((runOps ops tm).GetTask taskID).1 = (tm.GetTask taskID).1 := by
  induction ops generalizing tm with
  | nil => exact ⟨rfl, rfl⟩
  | cons op rest ih =>
    have hop : op.key ≠ taskID := h op (List.mem_cons_self _ _)
    have hhead := assignmentTrace_of_key_ne taskID op.assignments tm fun a ha =>
      (assignment_key_of_mem op a ha).symm ▸ hop
    have hstep := getTask_apply_of_key_ne op tm taskID hop
    have hrest := ih (op.apply tm) fun o ho => h o (List.mem_cons_of_mem _ ho)
    refine ⟨?_, ?_⟩
    · show assignmentTrace taskID tm op.assignments ++
        callTrace taskID (op.apply tm) rest = _
      rw [hhead, hrest.1, hstep, List.flatMap_cons, List.length_append,
        List.replicate_add]
    · show ((runOps rest (op.apply tm)).GetTask taskID).1 = _
      rw [hrest.2, hstep]

theorem callTrace_append (taskID : String) (before : List StoreOp) (op : StoreOp)
    (after : List StoreOp) (tm : TaskManager) :
    callTrace taskID tm (before ++ op :: after) =
      callTrace taskID tm before ++
        (assignmentTrace taskID (runOps before tm) op.assignments ++
          callTrace taskID (op.apply (runOps before tm)) after) := by
  induction before generalizing tm with
  | nil => rfl
  | cons o rest ih =>
    show assignmentTrace taskID tm o.assignments ++
      callTrace taskID (o.apply tm) (rest ++ op :: after) = _
    rw [ih]
    exact (List.append_assoc _ _ _).symm

/-- The states of a job along `UpdateTaskStatus` on its identifier. -/
theorem assignmentTrace_updateTaskStatus (tm : TaskManager) (taskID : String) (task : Task)
    (status : TaskStatus) (now : Int) (h : (tm.GetTask taskID).1 = some task) :
    assignmentTrace taskID tm (StoreOp.updateTaskStatus taskID status now).assignments =
      [ ⟨false, some { task with Status := status }⟩,
        ⟨true, some { task with Status := status, UpdatedAt := now }⟩ ] := by
  simp only [StoreOp.assignments, assignmentTrace, getTask_assignment, h, if_true,
    Option.map_some', List.isEmpty_cons, List.isEmpty_nil, Assignment.key, ne_eq,
    not_true_eq_false, decide_False, Bool.or_false, Bool.true_or]

/-- The states of a job along `UpdateTaskResult` on its identifier: the status is Completed
from the first assignment on, the result is there from the second on. -/
theorem assignmentTrace_updateTaskResult (tm : TaskManager) (taskID : String) (task : Task)
    (result : Option ImageGenerationResponse) (now : Int)
    (h : (tm.GetTask taskID).1 = some task) :
    assignmentTrace taskID tm (StoreOp.updateTaskResult taskID result now).assignments =
      [ ⟨false, some { task with Status := .Completed }⟩,
        ⟨false, some { task with Status := .Completed, Result := result }⟩,
        ⟨true, some { task with Status := .Completed, Result := result, UpdatedAt := now }⟩ ] := by
  simp only [StoreOp.assignments, assignmentTrace, getTask_assignment, h, if_true,
    Option.map_some', List.isEmpty_cons, List.isEmpty_nil, Assignment.key, ne_eq,
    not_true_eq_false, decide_False, Bool.or_false, Bool.true_or]

/-- The states of a job along `UpdateTaskError` on its identifier: the status is Failed from
the first assignment on, the message is there from the second on. -/
theorem assignmentTrace_updateTaskError (tm : TaskManager) (taskID : String) (task : Task)
    (errorMsg : String) (now : Int) (h : (tm.GetTask taskID).1 = some task) :
    assignmentTrace taskID tm (StoreOp.updateTaskError taskID errorMsg now).assignments =
      [ ⟨false, some { task with Status := .Failed }⟩,
        ⟨false, some { task with Status := .Failed, Error := errorMsg }⟩,
        ⟨true, some { task with Status := .Failed, Error := errorMsg, UpdatedAt := now }⟩ ] := by
  simp only [StoreOp.assignments, assignmentTrace, getTask_assignment, h, if_true,
    Option.map_some', List.isEmpty_cons, List.isEmpty_nil, Assignment.key, ne_eq,
    not_true_eq_false, decide_False, Bool.or_false, Bool.true_or]

/-- The states of a job along two calls interleaved with calls addressed to other keys. -/
theorem taskTrace_lifecycle (taskID : String) (tm : TaskManager) (first second : StoreOp)
    (others1 others2 others3 : List StoreOp) (h1 : ∀ op ∈ others1, op.key ≠ taskID)
    (h2 : ∀ op ∈ others2, op.key ≠ taskID) (h3 : ∀ op ∈ others3, op.key ≠ taskID) :
    taskTrace taskID tm (others1 ++ first :: (others2 ++ second :: others3)) =
      List.replicate ((others1.flatMap StoreOp.assignments).length + 1)
          ⟨true, (tm.GetTask taskID).1⟩ ++
        (assignmentTrace taskID (runOps others1 tm) first.assignments ++
          (List.replicate (others2.flatMap StoreOp.assignments).length
              ⟨true, ((first.apply (runOps others1 tm)).GetTask taskID).1⟩ ++
            (assignmentTrace taskID (runOps others2 (first.apply (runOps others1 tm)))
                second.assignments ++
              List.replicate (others3.flatMap StoreOp.assignments).length
                ⟨true, ((second.apply (runOps others2
                  (first.apply (runOps others1 tm)))).GetTask taskID).1⟩))) := by
  unfold taskTrace
  rw [callTrace_append, callTrace_append,
    (callTrace_of_other_keys taskID others1 tm h1).1,
    (callTrace_of_other_keys taskID others2 _ h2).1,
    (callTrace_of_other_keys taskID others3 _ h3).1, List.replicate_succ]
  rfl

/-- The states of a job in the store along the goroutine of `GenerateImageAsync`, its store
calls interleaved with calls addressed to other keys: the job as it was; then the two states
of `UpdateTaskStatus`, Processing; then the three states of the terminal call, which is
`UpdateTaskResult` with the response of the gateway when it returned no error and
`UpdateTaskError` with the message of its error when it returned one. -/
theorem asyncGeneration_trace (s : ImageService) (tm : TaskManager) (req : GenerateImageRequest)
    (task : Task) (clock1 clock2 : Int) (others1 others2 others3 : List StoreOp)
    (h1 : ∀ op ∈ others1, op.key ≠ task.ID) (h2 : ∀ op ∈ others2, op.key ≠ task.ID)
    (h3 : ∀ op ∈ others3, op.key ≠ task.ID) (hget : (tm.GetTask task.ID).1 = some task) :
    ∃ (second : StoreOp) (t1 t2 t3 : Task),
      s.asyncGeneration req task clock1 clock2 =
        [ .store (.updateTaskStatus task.ID .Processing clock1),
          .gateway (s.domainRequest req), .store second ] ∧
      second.isTerminal = true ∧ second.key = task.ID ∧
      taskTrace task.ID tm
          (others1 ++ StoreOp.updateTaskStatus task.ID .Processing clock1 ::
            (others2 ++ second :: others3)) =
        List.replicate ((others1.flatMap StoreOp.assignments).length + 1)
            ⟨true, some task⟩ ++
          ([ ⟨false, some { task with Status := .Processing }⟩,
             ⟨true, some { task with Status := .Processing, UpdatedAt := clock1 }⟩ ] ++
            (List.replicate (others2.flatMap StoreOp.assignments).length
                ⟨true, some { task with Status := .Processing, UpdatedAt := clock1 }⟩ ++
              ([⟨false, some t1⟩, ⟨false, some t2⟩, ⟨true, some t3⟩] ++
                List.replicate (others3.flatMap StoreOp.assignments).length
                  ⟨true, some t3⟩))) ∧
      ((ImageClient.GenerateImage s.config s.unmarshal s.transport (s.domainRequest req)).2
          = none →
        ∃ r, (ImageClient.GenerateImage s.config s.unmarshal s.transport
            (s.domainRequest req)).1 = some r ∧
          t1 = { task with Status := .Completed, UpdatedAt := clock1 } ∧
          t2 = { task with Status := .Completed, Result := some r, UpdatedAt := clock1 } ∧
          t3 = { task with Status := .Completed, Result := some r, UpdatedAt := clock2 }) ∧
      (∀ e, (ImageClient.GenerateImage s.config s.unmarshal s.transport
          (s.domainRequest req)).2 = some e →
        e ≠ "" ∧
          t1 = { task with Status := .Failed, UpdatedAt := clock1 } ∧
          t2 = { task with Status := .Failed, Error := e, UpdatedAt := clock1 } ∧
          t3 = { task with Status := .Failed, Error := e, UpdatedAt := clock2 }) := by
  have hpre : ((runOps others1 tm).GetTask task.ID).1 = some task := by
    rw [(callTrace_of_other_keys task.ID others1 tm h1).2, hget]
  have hmid : (((StoreOp.updateTaskStatus task.ID .Processing clock1).apply
      (runOps others1 tm)).GetTask task.ID).1 =
      some { task with Status := .Processing, UpdatedAt := clock1 } := by
    simp only [StoreOp.apply, getTask_updateTaskStatus, if_true, hpre, Option.map_some']
  have hmid2 : ((runOps others2 ((StoreOp.updateTaskStatus task.ID .Processing clock1).apply
      (runOps others1 tm))).GetTask task.ID).1 =
      some { task with Status := .Processing, UpdatedAt := clock1 } := by
    rw [(callTrace_of_other_keys task.ID others2 _ h2).2, hmid]
  rcases generateImage_outcome s.config s.unmarshal s.transport (s.domainRequest req) with
    ⟨r, hr⟩ | ⟨e, he, hne⟩
  · have hfin : (((StoreOp.updateTaskResult task.ID (some r) clock2).apply
        (runOps others2 ((StoreOp.updateTaskStatus task.ID .Processing clock1).apply
          (runOps others1 tm)))).GetTask task.ID).1 =
        some { task with Status := .Completed, Result := some r, UpdatedAt := clock2 } := by
      show ((TaskManager.UpdateTaskResult _ task.ID (some r) clock2).GetTask task.ID).1 = _
      rw [getTask_updateTaskResult, if_pos rfl, hmid2]
      rfl
    refine ⟨StoreOp.updateTaskResult task.ID (some r) clock2,
      { task with Status := .Completed, UpdatedAt := clock1 },
      { task with Status := .Completed, Result := some r, UpdatedAt := clock1 },
      { task with Status := .Completed, Result := some r, UpdatedAt := clock2 },
      ?_, rfl, rfl, ?_, ?_, ?_⟩
    · simp only [ImageService.asyncGeneration, hr]
    · rw [taskTrace_lifecycle task.ID tm _ _ others1 others2 others3 h1 h2 h3, hget, hmid,
        hfin, assignmentTrace_updateTaskStatus _ _ _ _ _ hpre,
        assignmentTrace_updateTaskResult _ _ _ _ _ hmid2]
    · intro _
      exact ⟨r, by rw [hr], rfl, rfl, rfl⟩
    · intro e he
      rw [hr] at he
      exact absurd he (by simp)
  · have hfin : (((StoreOp.updateTaskError task.ID e clock2).apply
        (runOps others2 ((StoreOp.updateTaskStatus task.ID .Processing clock1).apply
          (runOps others1 tm)))).GetTask task.ID).1 =
        some { task with Status := .Failed, Error := e, UpdatedAt := clock2 } := by
      show ((TaskManager.UpdateTaskError _ task.ID e clock2).GetTask task.ID).1 = _
      rw [getTask_updateTaskError, if_pos rfl, hmid2]
      rfl
    refine ⟨StoreOp.updateTaskError task.ID e clock2,
      { task with Status := .Failed, UpdatedAt := clock1 },
      { task with Status := .Failed, Error := e, UpdatedAt := clock1 },
      { task with Status := .Failed, Error := e, UpdatedAt := clock2 },
      ?_, rfl, rfl, ?_, ?_, ?_⟩
    · simp only [ImageService.asyncGeneration, he]
    · rw [taskTrace_lifecycle task.ID tm _ _ others1 others2 others3 h1 h2 h3, hget, hmid,
        hfin, assignmentTrace_updateTaskStatus _ _ _ _ _ hpre,
        assignmentTrace_updateTaskError _ _ _ _ _ hmid2]
    · intro hnone
      rw [he] at hnone
      exact absurd hnone (by simp)
    · intro e' he'
      rw [he] at he'
      have : e = e' := by simpa using he'
      subst this
      exact ⟨hne, rfl, rfl, rfl⟩

/-- C8 (as amended). For a valid request, `GenerateImageAsync` returns a handle with status
Pending for a job it has put in the store, and the goroutine it starts calls
`UpdateTaskStatus` with Processing, then the gateway, then one terminal store method: it
makes exactly one terminal store call.  As long as no other store call addresses the
identifier of the job, the status of the job, in every state after an assignment of a store
call, is Pending, then Processing, then Completed when the gateway returned no error and
Failed when it returned one: it is never Pending again once it has left Pending. -/
theorem job_status_sequence (s : ImageService) (tm : TaskManager) (req : GenerateImageRequest)
    (idClock createdClock updatedClock clock1 clock2 : Int)
    (others1 others2 others3 : List StoreOp)
    (hvalid : ImageService.validateGenerateImageRequest req = none)
    (h1 : ∀ op ∈ others1, op.key ≠ generateTaskID idClock)
    (h2 : ∀ op ∈ others2, op.key ≠ generateTaskID idClock)
    (h3 : ∀ op ∈ others3, op.key ≠ generateTaskID idClock) :
    ∃ handle task tm1 first second,
      ImageService.GenerateImageAsync tm req idClock createdClock updatedClock =
        ((some handle, none), tm1, some task) ∧
      handle.TaskId = task.ID ∧ handle.Status = .TASK_STATUS_PENDING ∧
      s.asyncGeneration req task clock1 clock2 =
        [.store first, .gateway (s.domainRequest req), .store second] ∧
      first = .updateTaskStatus task.ID .Processing clock1 ∧
      second.key = task.ID ∧
      (storeCalls (s.asyncGeneration req task clock1 clock2)).countP StoreOp.isTerminal = 1 ∧
      (taskTrace task.ID tm1 (others1 ++ first :: (others2 ++ second :: others3))).map
          (fun state => state.job.map Task.Status) =
        List.replicate ((others1.flatMap StoreOp.assignments).length + 1) (some .Pending) ++
          (List.replicate ((others2.flatMap StoreOp.assignments).length + 2)
              (some .Processing) ++
            List.replicate ((others3.flatMap StoreOp.assignments).length + 3)
              (some (if (ImageClient.GenerateImage s.config s.unmarshal s.transport
                  (s.domainRequest req)).2 = none then TaskStatus.Completed
                else TaskStatus.Failed))) := by
  have hget : (((tm.CreateTask req.Prompt idClock createdClock updatedClock).2).GetTask
      (tm.CreateTask req.Prompt idClock createdClock updatedClock).1.ID).1 =
      some (tm.CreateTask req.Prompt idClock createdClock updatedClock).1 := by
    rw [getTask_createTask]
    exact if_pos rfl
  obtain ⟨second, t1, t2, t3, hops, hterm, hkey, htrace, hok, herr⟩ :=
    asyncGeneration_trace s (tm.CreateTask req.Prompt idClock createdClock updatedClock).2 req
      (tm.CreateTask req.Prompt idClock createdClock updatedClock).1 clock1 clock2
      others1 others2 others3 h1 h2 h3 hget
  refine ⟨_, _, _, _, second,
    generateImageAsync_of_valid tm req idClock createdClock updatedClock hvalid,
    rfl, rfl, hops, rfl, hkey, ?_, ?_⟩
  · rw [hops]
    show List.countP StoreOp.isTerminal [StoreOp.updateTaskStatus _ _ _, second] = 1
    rw [List.countP_cons, List.countP_cons, List.countP_nil, hterm]
    rfl
  · rw [htrace]
    have hstatus : t1.Status = t3.Status ∧ t2.Status = t3.Status ∧
        t3.Status = if (ImageClient.GenerateImage s.config s.unmarshal s.transport
          (s.domainRequest req)).2 = none then TaskStatus.Completed
          else TaskStatus.Failed := by
      cases hg : (ImageClient.GenerateImage s.config s.unmarshal s.transport
          (s.domainRequest req)).2 with
      | none =>
        obtain ⟨r, _, e1, e2, e3⟩ := hok hg
        rw [e1, e2, e3]
        exact ⟨rfl, rfl, rfl⟩
      | some e =>
        obtain ⟨_, e1, e2, e3⟩ := herr e hg
        rw [e1, e2, e3]
        exact ⟨rfl, rfl, rfl⟩
    obtain ⟨s1, s2, s3⟩ := hstatus
    simp only [List.map_append, List.map_replicate, List.map_cons, List.map_nil,
      Option.map_some', s1, s2, List.replicate_succ, List.cons_append, List.nil_append]
    rw [← s3]
    rfl

/-- C9 (as amended). For every outcome of the gateway, and as long as no other store call
addresses the identifier of the job, in every state a job created by `GenerateImageAsync`
passes through, the states between two assignments of a store call included, the job never
has both a result and an error message that is not empty; and in every state in which the
job is at rest, if its status is Completed its result is not nil and if its status is Failed
its error message is not empty. -/
theorem job_outcome_invariant (s : ImageService) (tm : TaskManager)
    (req : GenerateImageRequest) (idClock createdClock updatedClock clock1 clock2 : Int)
    (others1 others2 others3 : List StoreOp)
    (hvalid : ImageService.validateGenerateImageRequest req = none)
    (h1 : ∀ op ∈ others1, op.key ≠ generateTaskID idClock)
    (h2 : ∀ op ∈ others2, op.key ≠ generateTaskID idClock)
    (h3 : ∀ op ∈ others3, op.key ≠ generateTaskID idClock) :
    ∃ handle task tm1 first second,
      ImageService.GenerateImageAsync tm req idClock createdClock updatedClock =
        ((some handle, none), tm1, some task) ∧
      storeCalls (s.asyncGeneration req task clock1 clock2) = [first, second] ∧
      ∀ state ∈ taskTrace task.ID tm1 (others1 ++ first :: (others2 ++ second :: others3)),
        ∃ job, state.job = some job ∧
          ¬ (job.Result ≠ none ∧ job.Error ≠ "") ∧
          (state.atRest = true →
            (job.Status = .Completed → job.Result ≠ none) ∧
            (job.Status = .Failed → job.Error ≠ "")) := by
  have hget : (((tm.CreateTask req.Prompt idClock createdClock updatedClock).2).GetTask
      (tm.CreateTask req.Prompt idClock createdClock updatedClock).1.ID).1 =
      some (tm.CreateTask req.Prompt idClock createdClock updatedClock).1 := by
    rw [getTask_createTask]
    exact if_pos rfl
  obtain ⟨second, t1, t2, t3, hops, _, _, htrace, hok, herr⟩ :=
    asyncGeneration_trace s (tm.CreateTask req.Prompt idClock createdClock updatedClock).2 req
      (tm.CreateTask req.Prompt idClock createdClock updatedClock).1 clock1 clock2
      others1 others2 others3 h1 h2 h3 hget
  refine ⟨_, _, _, _, second,
    generateImageAsync_of_valid tm req idClock createdClock updatedClock hvalid,
    by rw [hops]; rfl, ?_⟩
  have hfinal : ¬ (t1.Result ≠ none ∧ t1.Error ≠ "") ∧ ¬ (t2.Result ≠ none ∧ t2.Error ≠ "") ∧
      ¬ (t3.Result ≠ none ∧ t3.Error ≠ "") ∧
      (t3.Status = .Completed → t3.Result ≠ none) ∧ (t3.Status = .Failed → t3.Error ≠ "") := by
    cases hg : (ImageClient.GenerateImage s.config s.unmarshal s.transport
        (s.domainRequest req)).2 with
    | none =>
      obtain ⟨r, _, e1, e2, e3⟩ := hok hg
      rw [e1, e2, e3]
      exact ⟨fun h => h.1 rfl, fun h => h.2 rfl, fun h => h.2 rfl,
        fun _ => Option.some_ne_none r, fun h => by simp [TaskManager.CreateTask] at h⟩
    | some e =>
      obtain ⟨hne, e1, e2, e3⟩ := herr e hg
      rw [e1, e2, e3]
      exact ⟨fun h => h.1 rfl, fun h => h.1 rfl, fun h => h.1 rfl,
        fun h => by simp [TaskManager.CreateTask] at h, fun _ => hne⟩
  obtain ⟨f1, f2, f3, fc, ff⟩ := hfinal
  intro state hstate
  rw [htrace] at hstate
  rcases List.mem_append.mp hstate with hs | hs
  · rw [List.eq_of_mem_replicate hs]
    exact ⟨_, rfl, fun h => h.1 rfl,
      fun _ => ⟨fun h => by simp [TaskManager.CreateTask] at h, fun h => by simp [TaskManager.CreateTask] at h⟩⟩
  rcases List.mem_append.mp hs with hs | hs
  · simp only [List.mem_cons, List.mem_singleton, List.not_mem_nil, or_false] at hs
    rcases hs with hs | hs <;> rw [hs] <;>
      exact ⟨_, rfl, fun h => h.1 rfl,
        fun _ => ⟨fun h => by simp [TaskManager.CreateTask] at h, fun h => by simp [TaskManager.CreateTask] at h⟩⟩
  rcases List.mem_append.mp hs with hs | hs
  · rw [List.eq_of_mem_replicate hs]
    exact ⟨_, rfl, fun h => h.1 rfl,
      fun _ => ⟨fun h => by simp [TaskManager.CreateTask] at h, fun h => by simp [TaskManager.CreateTask] at h⟩⟩
  rcases List.mem_append.mp hs with hs | hs
  · simp only [List.mem_cons, List.mem_singleton, List.not_mem_nil, or_false] at hs
    rcases hs with hs | hs | hs <;> rw [hs]
    · exact ⟨_, rfl, f1, fun h => by simp [TaskManager.CreateTask] at h⟩
    · exact ⟨_, rfl, f2, fun h => by simp [TaskManager.CreateTask] at h⟩
    · exact ⟨_, rfl, f3, fun _ => ⟨fc, ff⟩⟩
  · rw [List.eq_of_mem_replicate hs]
    exact ⟨_, rfl, f3, fun _ => ⟨fc, ff⟩⟩

/-- C8, witness: a provider that streams two images, an empty store, and the creation of
another job, on another clock reading, between the two store calls of the goroutine. -/
theorem job_status_sequence_witness :
    ∃ handle task tm1 first second,
      ImageService.GenerateImageAsync NewTaskManager balloonRequest 1 1 1 =
        ((some handle, none), tm1, some task) ∧
      handle.TaskId = task.ID ∧ handle.Status = .TASK_STATUS_PENDING ∧
      serviceTwoImages.asyncGeneration balloonRequest task 2 3 =
        [.store first, .gateway (serviceTwoImages.domainRequest balloonRequest),
          .store second] ∧
      first = .updateTaskStatus task.ID .Processing 2 ∧
      second.key = task.ID ∧
      (storeCalls (serviceTwoImages.asyncGeneration balloonRequest task 2 3)).countP
        StoreOp.isTerminal = 1 ∧
      (taskTrace task.ID tm1
          ([] ++ first :: ([StoreOp.createTask "a blue kite" 5 5 5] ++ second :: []))).map
          (fun state => state.job.map Task.Status) =
        List.replicate ((([] : List StoreOp).flatMap StoreOp.assignments).length + 1)
            (some .Pending) ++
          (List.replicate
              (([StoreOp.createTask "a blue kite" 5 5 5].flatMap StoreOp.assignments).length
                + 2)
              (some .Processing) ++
            List.replicate ((([] : List StoreOp).flatMap StoreOp.assignments).length + 3)
              (some (if (ImageClient.GenerateImage serviceTwoImages.config
                  serviceTwoImages.unmarshal serviceTwoImages.transport
                  (serviceTwoImages.domainRequest balloonRequest)).2 = none
                then TaskStatus.Completed else TaskStatus.Failed))) :=
  job_status_sequence serviceTwoImages NewTaskManager balloonRequest 1 1 1 2 3
    [] [StoreOp.createTask "a blue kite" 5 5 5] [] (by decide) (by decide) (by decide)
    (by decide)

/-- C8, counterexample: a second request is submitted between the two store calls of the
goroutine of a first one, and `CreateTask` reads for it the clock value it read for the
first.  The two jobs have one identifier, and the status under it is Pending, Processing,
Processing, then Pending again, then Failed three times. -/
theorem job_status_pending_again :
    ∃ handle task tm1 first second handle2 task2,
      ImageService.GenerateImageAsync NewTaskManager balloonRequest 1 1 1 =
        ((some handle, none), tm1, some task) ∧
      storeCalls (serviceUpstreamError.asyncGeneration balloonRequest task 2 4) =
        [first, second] ∧
      ImageService.GenerateImageAsync (first.apply tm1) kiteRequest 1 3 3 =
        ((some handle2, none), (StoreOp.createTask "a blue kite" 1 3 3).apply (first.apply tm1),
          some task2) ∧
      handle2.TaskId = handle.TaskId ∧
      (taskTrace task.ID tm1 [first, StoreOp.createTask "a blue kite" 1 3 3, second]).map
          (fun state => state.job.map Task.Status) =
        [some .Pending, some .Processing, some .Processing, some .Pending, some .Failed,
          some .Failed, some .Failed] :=
  ⟨_, _, _, _, _, _, _, rfl, rfl, rfl, rfl, by decide⟩

/-- C9, witness: a provider that answers with status 500, an empty store, and the creation
of another job, on another clock reading, between the two store calls of the goroutine. -/
theorem job_outcome_invariant_witness :
    ∃ handle task tm1 first second,
      ImageService.GenerateImageAsync NewTaskManager balloonRequest 1 1 1 =
        ((some handle, none), tm1, some task) ∧
      storeCalls (serviceUpstreamError.asyncGeneration balloonRequest task 2 3) =
        [first, second] ∧
      ∀ state ∈ taskTrace task.ID tm1
          ([] ++ first :: ([StoreOp.createTask "a blue kite" 5 5 5] ++ second :: [])),
        ∃ job, state.job = some job ∧
          ¬ (job.Result ≠ none ∧ job.Error ≠ "") ∧
          (state.atRest = true →
            (job.Status = .Completed → job.Result ≠ none) ∧
            (job.Status = .Failed → job.Error ≠ "")) :=
  job_outcome_invariant serviceUpstreamError NewTaskManager balloonRequest 1 1 1 2 3
    [] [StoreOp.createTask "a blue kite" 5 5 5] [] (by decide) (by decide) (by decide)
    (by decide)

/-- C9, counterexample: two requests are submitted and `CreateTask` reads the same clock
value for both, so that the two jobs have one identifier.  The gateway fails for the first
request and succeeds for the second; after the store calls of the two goroutines the job
under the identifier is at rest with status Completed, a result, and the error message of
the first request. -/
theorem job_holds_result_and_error :
    ∃ handleA taskA tm1 handleB taskB tm2,
      ImageService.GenerateImageAsync NewTaskManager balloonRequest 1 1 1 =
        ((some handleA, none), tm1, some taskA) ∧
      ImageService.GenerateImageAsync tm1 kiteRequest 1 2 2 =
        ((some handleB, none), tm2, some taskB) ∧
      handleB.TaskId = handleA.TaskId ∧
      ((taskTrace taskB.ID tm2
          (storeCalls (serviceFailsOnBalloon.asyncGeneration balloonRequest taskA 3 4) ++
            storeCalls (serviceFailsOnBalloon.asyncGeneration kiteRequest taskB 5 6))).getLast?.map
        fun state => (state.atRest, state.job.map fun job =>
          (job.Prompt, job.Status, job.Result.isSome, job.Error))) =
        some (true, some ("a blue kite", TaskStatus.Completed, true,
          "API request failed with status 500: overloaded")) :=
  ⟨_, _, _, _, _, _, rfl, rfl, rfl, by decide⟩

/-! ## The sentinel and events without a url -/

/-- C16 (as amended). A line shorter than 65536 bytes that trims to `data: [DONE]` is
skipped like an empty line and the loop goes on: the state after it is the state before it,
and removing the line from a stream, wherever it stands, leaves the outcome of the
aggregation unchanged, so the events after it are aggregated as if it were not there. -/
theorem parseSSEResponse_sentinel_skipped (unmarshal : Unmarshal) (before after : List String)
    (err : Option String) (st : ScanState) (text : String)
    (h : trimSpace text = "data: [DONE]") (hfit : text.utf8ByteSize < 65536) :
    scanLine unmarshal st text = st ∧
    scanLine unmarshal st text = scanLine unmarshal st "" ∧
    parseSSEResponse unmarshal ⟨before ++ text :: after, err⟩ =
      parseSSEResponse unmarshal ⟨before ++ after, err⟩ := by
  have hskip : ∀ s : ScanState, scanLine unmarshal s text = s := by
    intro s
    unfold scanLine
    simp [h]
  refine ⟨hskip st, ?_, ?_⟩
  · rw [hskip st]
    unfold scanLine
    have : trimSpace "" = "" := by decide
    simp [this]
  · exact parseSSEResponse_insert_skipped unmarshal before after err text hfit hskip

/-- C16, witness of the amended statement: in `streamSentinelInside` the event after the
sentinel is aggregated. -/
theorem parseSSEResponse_sentinel_skipped_witness :
    scanLine demoUnmarshal ScanState.init "data: [DONE]" = ScanState.init ∧
    scanLine demoUnmarshal ScanState.init "data: [DONE]" =
      scanLine demoUnmarshal ScanState.init "" ∧
    parseSSEResponse demoUnmarshal
        ⟨["data: " ++ payloadFull] ++ "data: [DONE]" :: ["data: " ++ payloadSecond], none⟩ =
      parseSSEResponse demoUnmarshal
        ⟨["data: " ++ payloadFull] ++ ["data: " ++ payloadSecond], none⟩ :=
  parseSSEResponse_sentinel_skipped demoUnmarshal ["data: " ++ payloadFull]
    ["data: " ++ payloadSecond] none ScanState.init "data: [DONE]" (by decide) (by decide)

/-- C16, counterexample to the claim as stated: `paddedSentinel`, the sentinel followed by
65536 spaces, trims to `data: [DONE]`; the stream without it gives 2 images and the stream
with it fails, the line being too long for the scanner before it is ever trimmed. -/
theorem parseSSEResponse_padded_sentinel :
    trimSpace paddedSentinel = "data: [DONE]" ∧
    65536 ≤ paddedSentinel.utf8ByteSize ∧
    (parseSSEResponse demoUnmarshal
      ⟨["data: " ++ payloadFull] ++ ["data: " ++ payloadSecond], none⟩).1.map
        (fun r => r.Data.length) = some 2 ∧
    parseSSEResponse demoUnmarshal
      ⟨["data: " ++ payloadFull] ++ paddedSentinel :: ["data: " ++ payloadSecond], none⟩ =
        (none, some "error reading SSE stream: bufio.Scanner: token too long") := by
  refine ⟨trimSpace_paddedSentinel, ?_, by decide, ?_⟩
  · have hf := fitsBuffer_paddedSentinel
    by_contra hlt
    have := (fitsBuffer_iff paddedSentinel).mpr (by omega)
    rw [hf] at this
    exact absurd this (by decide)
  · exact parseSSEResponse_of_long_line demoUnmarshal _
      ⟨paddedSentinel, List.mem_append_right _ (List.mem_cons_self _ _),
        fitsBuffer_paddedSentinel⟩

/-- C17 (as amended). The images the method accumulates are as many as the
partial_succeeded events with a string `url` among the lines before the first line of 65536
bytes or more, which are all the lines of the stream when every line is shorter; a stream
of lines shorter than 65536 bytes, read to its end without error, in which no
partial_succeeded event has a string `url` fails with the empty-result error; and a
partial_succeeded event without a string `url` that comes first adds no image and still sets
identifier, model and creation timestamp, which are those of the result when its id is not
empty. -/
theorem partial_without_url (unmarshal : Unmarshal) (body : SSEBody) :
    (body.scanned.foldl (scanLine unmarshal) ScanState.init).images.length =
      (wellFormedPartialEvents unmarshal (body.lines.takeWhile fitsBuffer)).length ∧
    ((∀ line ∈ body.lines, line.utf8ByteSize < 65536) →
      (body.scanned.foldl (scanLine unmarshal) ScanState.init).images.length =
        (wellFormedPartialEvents unmarshal body.lines).length) ∧
    (∀ r, (parseSSEResponse unmarshal body).1 = some r →
      r.Data.length = (wellFormedPartialEvents unmarshal body.lines).length) ∧
    ((∀ line ∈ body.lines, line.utf8ByteSize < 65536) → body.err = none →
      wellFormedPartialEvents unmarshal body.lines = [] →
      parseSSEResponse unmarshal body = (none, some "no images generated")) ∧
    (∀ obj : JSONObject, asString (obj.lookup "url") = none →
      (onPartialSucceeded ScanState.init obj).images = [] ∧
      (onPartialSucceeded ScanState.init obj).imageResp.ID = (idOfEvent obj).getD "" ∧
      (onPartialSucceeded ScanState.init obj).imageResp.Model = (modelOfEvent obj).getD "" ∧
      (onPartialSucceeded ScanState.init obj).imageResp.Created =
        (createdOfEvent obj).getD 0) ∧
    (∀ r first later id, (parseSSEResponse unmarshal body).1 = some r →
      partialEvents unmarshal body.lines = first :: later →
      asString (first.lookup "url") = none → idOfEvent first = some id → id ≠ "" →
      r.ID = id ∧ r.Model = (modelOfEvent first).getD "" ∧
        r.Created = (createdOfEvent first).getD 0) := by
  have hcount : ∀ lines : List String,
      (lines.foldl (scanLine unmarshal) ScanState.init).images.length =
        (wellFormedPartialEvents unmarshal lines).length := by
    intro lines
    have himg := foldl_scanLine_images unmarshal lines ScanState.init
    rw [filterMap_partialImage] at himg
    rw [himg]
    simp only [ScanState.init, List.nil_append]
    exact length_filterMap_of_isSome imageOfEvent _
      (imageOfEvent_isSome_of_wellFormed unmarshal lines)
  have hscanned : (body.scanned.foldl (scanLine unmarshal) ScanState.init) =
      ((body.lines.takeWhile fitsBuffer).foldl (scanLine unmarshal) ScanState.init) := by
    unfold SSEBody.scanned
    exact foldl_scanLine_map_dropCR unmarshal _ _
  refine ⟨?_, ?_, ?_, ?_, ?_, ?_⟩
  · rw [hscanned]
    exact hcount _
  · intro hfit
    rw [hscanned, (takeWhile_fitsBuffer_of_fit body.lines hfit).1]
    exact hcount _
  · intro r hr
    rw [parseSSEResponse_success unmarshal body r hr]
    exact hcount _
  · intro hfit herr hnone
    have hlen := hcount body.lines
    rw [hnone] at hlen
    rw [parseSSEResponse_of_fit unmarshal body hfit]
    simp only [herr]
    exact if_pos hlen
  · intro obj hurl
    refine ⟨?_, onPartialSucceeded_unseeded ScanState.init obj rfl rfl rfl⟩
    rw [onPartialSucceeded_images]
    simp [imageOfEvent, hurl, ScanState.init]
  · intro r first later id hr hev _ hid hne
    rw [parseSSEResponse_success unmarshal body r hr]
    exact foldl_scanLine_header unmarshal body.lines ScanState.init first later id rfl rfl rfl
      hev hid hne

/-- C17, witness of the amended statement: `streamOnlyWithoutURL` fails with the
empty-result error, and `streamFirstWithoutURL` succeeds with a result that has the id of
its first, url-less event. -/
theorem partial_without_url_witness :
    parseSSEResponse demoUnmarshal ⟨streamOnlyWithoutURL, none⟩ =
      (none, some "no images generated") ∧
    ∃ r, (parseSSEResponse demoUnmarshal ⟨streamFirstWithoutURL, none⟩).1 = some r ∧
      r.Data.length = 1 ∧ r.ID = "id9" :=
  ⟨(partial_without_url demoUnmarshal ⟨streamOnlyWithoutURL, none⟩).2.2.2.1 (by decide) rfl rfl,
    ImageGenerationResponse.mk "id9" "list" 0 "" [⟨"u2", "", ""⟩] ⟨0, 0, 0⟩, by decide, rfl,
    ((partial_without_url demoUnmarshal ⟨streamFirstWithoutURL, none⟩).2.2.2.2.2
      (ImageGenerationResponse.mk "id9" "list" 0 "" [⟨"u2", "", ""⟩] ⟨0, 0, 0⟩)
      [("type", .string "image_generation.partial_succeeded"), ("id", .string "id9")]
      [[("type", .string "image_generation.partial_succeeded"), ("url", .string "u2"),
        ("id", .string "id2"), ("model", .string "m2"), ("created", .number ⟨2, 0⟩)]]
      "id9" (by decide) rfl rfl rfl (by decide)).1⟩

/-- C17, counterexample to the claim as stated: `streamLongLineFirst` has one
partial_succeeded event with a string `url`, and the method accumulates no image, because
the loop ends at the blank line of 65536 bytes before it. -/
theorem partial_after_long_line_not_counted :
    (wellFormedPartialEvents demoUnmarshal streamLongLineFirst).length = 1 ∧
    blankLine64K.utf8ByteSize = 65536 ∧
    ((SSEBody.mk streamLongLineFirst none).scanned.foldl (scanLine demoUnmarshal)
      ScanState.init).images.length = 0 ∧
    parseSSEResponse demoUnmarshal ⟨streamLongLineFirst, none⟩ =
      (none, some "error reading SSE stream: bufio.Scanner: token too long") := by
  refine ⟨?_, utf8ByteSize_spaces 65536, ?_, ?_⟩
  · have h := eventsOfType_insert_of_none demoUnmarshal "image_generation.partial_succeeded"
      [] ["data: " ++ payloadFull] blankLine64K (eventOf_blankLine64K demoUnmarshal)
    unfold wellFormedPartialEvents partialEvents streamLongLineFirst
    rw [show [blankLine64K, "data: " ++ payloadFull] =
      [] ++ blankLine64K :: ["data: " ++ payloadFull] from rfl, h]
    decide
  · have hneg : ¬ fitsBuffer blankLine64K = true := by
      rw [fitsBuffer_blankLine64K]
      decide
    simp only [SSEBody.scanned, streamLongLineFirst, List.takeWhile_cons_of_neg hneg,
      List.map_nil, List.foldl_nil]
    rfl
  · exact parseSSEResponse_of_long_line demoUnmarshal ⟨streamLongLineFirst, none⟩
      ⟨blankLine64K, List.mem_cons_self _ _, fitsBuffer_blankLine64K⟩

/-! ## Identifiers -/

theorem filter_ne_of_not_key (m : List (String × Task)) (k : String)
    (h : k ∉ m.map Prod.fst) : (m.filter fun p => p.1 ≠ k) = m := by
  apply List.filter_eq_self.mpr
  intro p hp
  have : p.1 ≠ k := fun e => h (e ▸ List.mem_map_of_mem Prod.fst hp)
  simpa using this

theorem length_filter_ne_of_key (m : List (String × Task)) (k : String)
    (hnodup : (m.map Prod.fst).Nodup) (h : k ∈ m.map Prod.fst) :
    (m.filter fun p => p.1 ≠ k).length + 1 = m.length := by
  induction m with
  | nil => simp at h
  | cons p rest ih =>
    obtain ⟨key, task⟩ := p
    simp only [List.map_cons, List.nodup_cons] at hnodup
    by_cases hkey : key = k
    · subst hkey
      rw [List.filter_cons_of_neg (by simp), filter_ne_of_not_key rest key hnodup.1]
      rfl
    · have hrest : k ∈ rest.map Prod.fst := by
        simp only [List.map_cons, List.mem_cons] at h
        rcases h with h | h
        · exact absurd h.symm hkey
        · exact h
      rw [List.filter_cons_of_pos (by simpa using hkey), List.length_cons, List.length_cons,
        ih hnodup.2 hrest]

theorem nodup_keys_mapAssign (m : List (String × Task)) (k : String) (v : Task)
    (hnodup : (m.map Prod.fst).Nodup) : ((mapAssign m k v).map Prod.fst).Nodup := by
  unfold mapAssign
  simp only [List.map_cons, List.nodup_cons]
  constructor
  · intro hmem
    obtain ⟨p, hp, hk⟩ := List.mem_map.mp hmem
    have := (List.mem_filter.mp hp).2
    simp only [decide_eq_true_eq] at this
    exact this hk
  · exact (List.filter_sublist m).map Prod.fst |>.nodup hnodup

theorem digitChar_value (k : Nat) (h : k < 10) : (Nat.digitChar k).toNat - 48 = k := by
  interval_cases k <;> rfl

theorem digitChar_ne_minus (k : Nat) (h : k < 10) : Nat.digitChar k ≠ '-' := by
  interval_cases k <;> decide

theorem digitsValue_toDigitsCore (fuel n : Nat) (ds : List Char) (h : n < fuel) :
    digitsValue 0 (Nat.toDigitsCore 10 fuel n ds) = digitsValue n ds := by
  induction fuel generalizing n ds with
  | zero => omega
  | succ fuel ih =>
    unfold Nat.toDigitsCore
    simp only []
    by_cases h0 : n / 10 = 0
    · rw [if_pos h0]
      have hn : n % 10 = n := by omega
      simp only [digitsValue, List.foldl_cons, Nat.mul_zero, Nat.zero_add]
      rw [digitChar_value _ (Nat.mod_lt _ (by norm_num)), hn]
    · rw [if_neg h0, ih (n / 10) _ (by omega)]
      simp only [digitsValue, List.foldl_cons]
      rw [digitChar_value _ (Nat.mod_lt _ (by norm_num)), Nat.div_add_mod]

theorem toDigitsCore_no_minus (fuel n : Nat) (ds : List Char) (h : ∀ c ∈ ds, c ≠ '-') :
    ∀ c ∈ Nat.toDigitsCore 10 fuel n ds, c ≠ '-' := by
  induction fuel generalizing n ds with
  | zero => exact h
  | succ fuel ih =>
    have hcons : ∀ c ∈ Nat.digitChar (n % 10) :: ds, c ≠ '-' := by
      intro c hc
      rcases List.mem_cons.mp hc with hc | hc
      · rw [hc]; exact digitChar_ne_minus _ (Nat.mod_lt _ (by norm_num))
      · exact h c hc
    unfold Nat.toDigitsCore
    simp only []
    by_cases h0 : n / 10 = 0
    · rw [if_pos h0]; exact hcons
    · rw [if_neg h0]; exact ih _ _ hcons

theorem nat_repr_injective (m n : Nat) (h : Nat.repr m = Nat.repr n) : m = n := by
  have hd : Nat.toDigits 10 m = Nat.toDigits 10 n := by
    have := congrArg String.data h
    simpa [Nat.repr, List.asString] using this
  have hm := digitsValue_toDigitsCore (m + 1) m [] (by omega)
  have hn := digitsValue_toDigitsCore (n + 1) n [] (by omega)
  unfold Nat.toDigits at hd
  rw [hd, hn] at hm
  simpa [digitsValue] using hm.symm

theorem int_toString_injective (a b : Int) (h : toString a = toString b) : a = b := by
  have hminus : ∀ (m k : Nat), Nat.repr m ≠ "-" ++ Nat.repr k := by
    intro m k e
    have hd := congrArg String.data e
    have hmem : '-' ∈ (Nat.repr m).data := by rw [hd]; simp [String.data_append]
    exact toDigitsCore_no_minus (m + 1) m [] (by simp) '-' (by simpa [Nat.repr, Nat.toDigits, List.asString] using hmem) rfl
  cases a with
  | ofNat m =>
    cases b with
    | ofNat n =>
      have : Nat.repr m = Nat.repr n := h
      rw [nat_repr_injective m n this]
    | negSucc n =>
      exact absurd (show Nat.repr m = "-" ++ Nat.repr (n + 1) from h) (hminus _ _)
  | negSucc m =>
    cases b with
    | ofNat n =>
      exact absurd (show Nat.repr n = "-" ++ Nat.repr (m + 1) from h.symm) (hminus _ _)
    | negSucc n =>
      have h' : "-" ++ Nat.repr (m + 1) = "-" ++ Nat.repr (n + 1) := h
      have hd := congrArg String.data h'
      simp only [String.data_append, List.append_cancel_left_eq] at hd
      have := nat_repr_injective _ _ (String.ext hd)
      have : m = n := by omega
      rw [this]

/-- Two clock readings give the same identifier only when they are equal. -/
theorem generateTaskID_injective (a b : Int) (h : generateTaskID a = generateTaskID b) :
    a = b := by
  unfold generateTaskID at h
  have hd := congrArg String.data h
  simp only [String.data_append, List.append_cancel_left_eq] at hd
  exact int_toString_injective a b (String.ext hd)

/-- C11 (as amended). `CreateTask` assigns the identifier `task_` followed by the clock
reading in nanoseconds.  When that identifier is the key of no stored job, it differs from
the identifier of every stored job, every stored job is found as before, and the store has
one job more.  When it is already the key of a stored job, the new Pending job takes the
place of that job and the store has as many jobs as before.  In both cases no two jobs of
the store share an identifier afterwards, and only the same clock reading gives the same
identifier. -/
theorem createTask_identifier (tm : TaskManager) (prompt : String)
    (idClock createdClock updatedClock : Int) :
    (tm.CreateTask prompt idClock createdClock updatedClock).1.ID = generateTaskID idClock ∧
    (((tm.CreateTask prompt idClock createdClock updatedClock).2).GetTask
        (generateTaskID idClock)).1 =
      some (tm.CreateTask prompt idClock createdClock updatedClock).1 ∧
    (generateTaskID idClock ∉ tm.tasks.map Prod.fst →
      (∀ k ∈ tm.tasks.map Prod.fst,
        (tm.CreateTask prompt idClock createdClock updatedClock).1.ID ≠ k ∧
        (((tm.CreateTask prompt idClock createdClock updatedClock).2).GetTask k).1 =
          (tm.GetTask k).1) ∧
      ((tm.CreateTask prompt idClock createdClock updatedClock).2).tasks.length =
        tm.tasks.length + 1) ∧
    (generateTaskID idClock ∈ tm.tasks.map Prod.fst → (tm.tasks.map Prod.fst).Nodup →
      ((tm.CreateTask prompt idClock createdClock updatedClock).2).tasks.length =
        tm.tasks.length) ∧
    ((tm.tasks.map Prod.fst).Nodup →
      (((tm.CreateTask prompt idClock createdClock updatedClock).2).tasks.map
        Prod.fst).Nodup) ∧
    (∀ other : Int, generateTaskID other = generateTaskID idClock → other = idClock) := by
  refine ⟨rfl, ?_, ?_, ?_, ?_, fun other h => generateTaskID_injective other idClock h⟩
  · rw [getTask_createTask]
    exact if_pos rfl
  · intro hfresh
    constructor
    · intro k hk
      have hne : k ≠ generateTaskID idClock := fun e => hfresh (e ▸ hk)
      refine ⟨fun e => hne e.symm, ?_⟩
      rw [getTask_createTask, if_neg hne]
    · simp only [TaskManager.CreateTask, mapAssign, List.length_cons,
        filter_ne_of_not_key tm.tasks _ hfresh]
  · intro hmem hnodup
    simp only [TaskManager.CreateTask, mapAssign, List.length_cons]
    exact length_filter_ne_of_key tm.tasks _ hnodup hmem
  · intro hnodup
    exact nodup_keys_mapAssign tm.tasks _ _ hnodup

/-- C11, witness of the amended statement: a second job created on another clock reading. -/
theorem createTask_identifier_witness :
    (∀ k ∈ storeWithCompletedJob.tasks.map Prod.fst,
      (storeWithCompletedJob.CreateTask "a blue kite" 5 5 5).1.ID ≠ k ∧
      (((storeWithCompletedJob.CreateTask "a blue kite" 5 5 5).2).GetTask k).1 =
        (storeWithCompletedJob.GetTask k).1) ∧
    ((storeWithCompletedJob.CreateTask "a blue kite" 5 5 5).2).tasks.length =
      storeWithCompletedJob.tasks.length + 1 :=
  (createTask_identifier storeWithCompletedJob "a blue kite" 5 5 5).2.2.1 (by decide)

/-- C11, counterexample to the claim as stated: on the clock reading 1, the reading at which
the completed job of `storeWithCompletedJob` was created, `CreateTask` assigns the identifier
`task_1` of that job; the store still has one job, and it is the new Pending one. -/
theorem createTask_replaces_on_same_reading :
    storeWithCompletedJob.tasks.map Prod.fst = ["task_1"] ∧
    (storeWithCompletedJob.CreateTask "a blue kite" 1 4 4).1.ID = "task_1" ∧
    ((storeWithCompletedJob.CreateTask "a blue kite" 1 4 4).2).tasks.length = 1 ∧
    ((storeWithCompletedJob.GetTask "task_1").1).map
      (fun job => (job.Status, job.Prompt)) = some (.Completed, "a red balloon") ∧
    ((((storeWithCompletedJob.CreateTask "a blue kite" 1 4 4).2).GetTask "task_1").1).map
      (fun job => (job.Status, job.Prompt)) = some (.Pending, "a blue kite") := by
  decide

/-! ## The gateway request -/

/-- The transport is asked once, about the defaulted request. -/
theorem generateImage_sends_defaulted (config : ImageClientConfig) (unmarshal : Unmarshal)
    (transport : Transport) (req : ImageGenerationRequest) :
    ImageClient.GenerateImage config unmarshal transport req =
      ImageClient.GenerateImage config unmarshal
        (fun _ => transport (applyDefaults config req)) req := by
  simp only [ImageClient.GenerateImage]

theorem applyDefaults_fields (config : ImageClientConfig) (req : ImageGenerationRequest) :
    (applyDefaults config req).Model = (if req.Model = "" then config.Model else req.Model) ∧
    (applyDefaults config req).Size =
      (if req.Size = "" then config.DefaultSize else req.Size) ∧
    (applyDefaults config req).ResponseFormat =
      (if req.ResponseFormat = "" then "url" else req.ResponseFormat) ∧
    (applyDefaults config req).SequentialImageGeneration =
      (if req.SequentialImageGeneration = "" then "auto"
        else req.SequentialImageGeneration) ∧
    (applyDefaults config req).SequentialImageGenerationOptions =
      (match req.SequentialImageGenerationOptions with
        | none => some { MaxImages := 3 }
        | some options => some options) ∧
    (applyDefaults config req).Prompt = req.Prompt ∧
    (applyDefaults config req).Image = req.Image ∧
    (applyDefaults config req).Stream = req.Stream ∧
    (applyDefaults config req).Watermark = req.Watermark := by
  unfold applyDefaults
  by_cases h1 : req.Model = "" <;> by_cases h2 : req.ResponseFormat = "" <;>
    by_cases h3 : req.Size = "" <;> by_cases h4 : req.SequentialImageGeneration = "" <;>
      cases h5 : req.SequentialImageGenerationOptions <;> simp [h1, h2, h3, h4, h5]

/-- C12 (as amended). `GenerateImage` of the client sends the `Stream` field as it is given:
the defaulting leaves it alone and the transport is asked about the defaulted request only.
Every request the service passes to the client, from `GenerateImage`, from the goroutine of
`GenerateImageAsync` and from `GenerateSequentialImages`, has `Stream` true, so that every
request body the service sends has `stream` true. -/
theorem stream_sent_as_given (s : ImageService) (req : ImageGenerationRequest)
    (imageReq : GenerateImageRequest) (sequentialReq : GenerateSequentialImagesRequest) :
    (applyDefaults s.config req).Stream = req.Stream ∧
    ImageClient.GenerateImage s.config s.unmarshal s.transport req =
      ImageClient.GenerateImage s.config s.unmarshal
        (fun _ => s.transport (applyDefaults s.config req)) req ∧
    (∀ sent ∈ (s.GenerateImage imageReq).2,
      sent.Stream = true ∧ (applyDefaults s.config sent).Stream = true) ∧
    (s.domainRequest imageReq).Stream = true ∧
    (applyDefaults s.config (s.domainRequest imageReq)).Stream = true ∧
    (∀ sent ∈ (s.GenerateSequentialImages sequentialReq).2,
      sent.Stream = true ∧ (applyDefaults s.config sent).Stream = true) := by
  have hstream : ∀ q : ImageGenerationRequest, (applyDefaults s.config q).Stream = q.Stream :=
    fun q => (applyDefaults_fields s.config q).2.2.2.2.2.2.2.1
  refine ⟨hstream req, generateImage_sends_defaulted _ _ _ _, ?_, rfl, ?_, ?_⟩
  · intro sent hsent
    have hs : sent.Stream = true := by
      unfold ImageService.GenerateImage at hsent
      cases hv : ImageService.validateGenerateImageRequest imageReq with
      | some e => simp [hv] at hsent
      | none =>
        simp only [hv] at hsent
        cases hg : (ImageClient.GenerateImage s.config s.unmarshal s.transport
            (s.domainRequest imageReq)).2 with
        | some e =>
          simp only [hg, List.mem_singleton] at hsent
          rw [hsent]
          rfl
        | none =>
          simp only [hg, List.mem_singleton] at hsent
          rw [hsent]
          rfl
    exact ⟨hs, (hstream sent).trans hs⟩
  · exact (hstream _).trans rfl
  · intro sent hsent
    have hs : sent.Stream = true := by
      unfold ImageService.GenerateSequentialImages at hsent
      cases hv : ImageService.validateSequentialImagesRequest sequentialReq with
      | some e => simp [hv] at hsent
      | none =>
        simp only [hv] at hsent
        cases hg : (ImageClient.GenerateImage s.config s.unmarshal s.transport
            (s.sequentialDomainRequest sequentialReq)).2 with
        | some e =>
          simp only [hg, List.mem_singleton] at hsent
          rw [hsent]
          rfl
        | none =>
          simp only [hg, List.mem_singleton] at hsent
          rw [hsent]
          rfl
    exact ⟨hs, (hstream sent).trans hs⟩

/-- C12, counterexample to the claim as stated: given a request with `Stream` false, the
client hands the transport a body with `stream` false, as the transport that reports the
field shows. -/
theorem stream_false_is_sent :
    requestWithoutStream.Stream = false ∧
    (applyDefaults serviceTwoImages.config requestWithoutStream).Stream = false ∧
    ImageClient.GenerateImage serviceTwoImages.config demoUnmarshal transportEchoStream
      requestWithoutStream = (none, some "failed to send request: stream=false") := by
  decide

/-- C13. The request the client sends is the request it is given with exactly the unset
fields filled: an empty model becomes the configured model, an empty size the configured
default size, an empty response format `url`, an empty sequential-generation mode `auto`,
absent options `MaxImages: 3`; a field that is set, and prompt, images, stream flag and
watermark flag, are sent as given; and the defaulting applied to its own result changes
nothing. -/
theorem defaults_fill_unset_fields (config : ImageClientConfig) (unmarshal : Unmarshal)
    (transport : Transport) (req : ImageGenerationRequest) :
    ImageClient.GenerateImage config unmarshal transport req =
      ImageClient.GenerateImage config unmarshal
        (fun _ => transport (applyDefaults config req)) req ∧
    (applyDefaults config req).Model = (if req.Model = "" then config.Model else req.Model) ∧
    (applyDefaults config req).Size =
      (if req.Size = "" then config.DefaultSize else req.Size) ∧
    (applyDefaults config req).ResponseFormat =
      (if req.ResponseFormat = "" then "url" else req.ResponseFormat) ∧
    (applyDefaults config req).SequentialImageGeneration =
      (if req.SequentialImageGeneration = "" then "auto"
        else req.SequentialImageGeneration) ∧
    (applyDefaults config req).SequentialImageGenerationOptions =
      (match req.SequentialImageGenerationOptions with
        | none => some { MaxImages := 3 }
        | some options => some options) ∧
    (applyDefaults config req).Prompt = req.Prompt ∧
    (applyDefaults config req).Image = req.Image ∧
    (applyDefaults config req).Stream = req.Stream ∧
    (applyDefaults config req).Watermark = req.Watermark ∧
    applyDefaults config (applyDefaults config req) = applyDefaults config req := by
  obtain ⟨f1, f2, f3, f4, f5, f6, f7, f8, f9⟩ := applyDefaults_fields config req
  refine ⟨generateImage_sends_defaulted _ _ _ _, f1, f2, f3, f4, f5, f6, f7, f8, f9, ?_⟩
  unfold applyDefaults
  by_cases h1 : req.Model = "" <;> by_cases h2 : req.ResponseFormat = "" <;>
    by_cases h3 : req.Size = "" <;> by_cases h4 : req.SequentialImageGeneration = "" <;>
      cases h5 : req.SequentialImageGenerationOptions <;>
        by_cases c1 : config.Model = "" <;> by_cases c2 : config.DefaultSize = "" <;>
          simp [h1, h2, h3, h4, h5, c1, c2]

/-! ## Request validation -/

/-- What `validateGenerateImageRequest` accepts: a prompt that is not empty and has at most
1000 bytes. -/
theorem validateGenerateImageRequest_eq_none_iff (req : GenerateImageRequest) :
    ImageService.validateGenerateImageRequest req = none ↔
      req.Prompt ≠ "" ∧ req.Prompt.utf8ByteSize ≤ 1000 := by
  unfold ImageService.validateGenerateImageRequest
  by_cases h1 : req.Prompt = ""
  · simp [h1]
  · by_cases h2 : req.Prompt.utf8ByteSize > 1000
    · simp [h1, h2]
    · simp only [h1, h2, if_false, true_iff]
      exact ⟨fun e => h1 e, Nat.le_of_not_gt h2⟩

/-- What `validateSequentialImagesRequest` accepts: a prompt that is not empty and has at
most 1000 bytes, with a count from 1 to 10. -/
theorem validateSequentialImagesRequest_eq_none_iff (req : GenerateSequentialImagesRequest) :
    ImageService.validateSequentialImagesRequest req = none ↔
      req.Prompt ≠ "" ∧ req.Prompt.utf8ByteSize ≤ 1000 ∧ 1 ≤ req.MaxImages ∧
        req.MaxImages ≤ 10 := by
  unfold ImageService.validateSequentialImagesRequest
  by_cases h1 : req.Prompt = ""
  · simp [h1]
  · by_cases h2 : req.Prompt.utf8ByteSize > 1000
    · simp [h1, h2]
    · by_cases h3 : req.MaxImages ≤ 0 ∨ req.MaxImages > 10
      · simp only [h1, h2, h3, if_false, if_true]
        constructor
        · intro h; exact absurd h (by simp)
        · intro h
          rcases h3 with h3 | h3
          · omega
          · omega
      · simp only [h1, h2, h3, if_false, true_iff]
        refine ⟨fun e => h1 e, Nat.le_of_not_gt h2, ?_, ?_⟩ <;> omega

/-- A request that fails validation is answered with InvalidArgument, and the handler has
created no job, started no goroutine and called the client for no request. -/
theorem rejected_request_has_no_effect (s : ImageService) (tm : TaskManager)
    (req : GenerateImageRequest) (sequentialReq : GenerateSequentialImagesRequest)
    (idClock createdClock updatedClock : Int) :
    (∀ err, ImageService.validateGenerateImageRequest req = some err →
      ImageService.GenerateImageAsync tm req idClock createdClock updatedClock =
        ((none, some { code := .InvalidArgument, message := err }), tm, none) ∧
      s.GenerateImage req = ((none, some { code := .InvalidArgument, message := err }), [])) ∧
    (∀ err, ImageService.validateSequentialImagesRequest sequentialReq = some err →
      s.GenerateSequentialImages sequentialReq =
        ((none, some { code := .InvalidArgument, message := err }), [])) := by
  refine ⟨fun err h => ⟨?_, ?_⟩, fun err h => ?_⟩
  · simp only [ImageService.GenerateImageAsync, h]
  · simp only [ImageService.GenerateImage, h]
  · simp only [ImageService.GenerateSequentialImages, h]

/-- C14. The code at a prompt of 334 characters, each of three bytes: the prompt is not
empty and has fewer than 1000 characters, and both validations reject it as too long,
because `len` counts its 1002 bytes. -/
theorem validation_counts_bytes :
    promptOfCats ≠ "" ∧ promptOfCats.length = 334 ∧ promptOfCats.utf8ByteSize = 1002 ∧
    ImageService.validateGenerateImageRequest ⟨promptOfCats, "", "", [], false⟩ =
      some "prompt too long, maximum 1000 characters" ∧
    ImageService.validateSequentialImagesRequest ⟨promptOfCats, "", 3, "", false⟩ =
      some "prompt too long, maximum 1000 characters" := by
  set_option maxRecDepth 20000 in decide

/-! ## A poll concurrent with `UpdateTaskResult` -/

theorem writerStep_lock (taskID : String) (result : Option ImageGenerationResponse)
    (now : Int) (tm : TaskManager) (pc : Nat) (resp : Option GetImageTaskResponse)
    (e : Option StatusError) :
    RaceState.writerStep taskID result now ⟨tm, false, 0, pc, resp, e⟩ =
      ⟨tm, true, 1, pc, resp, e⟩ := rfl

theorem writerStep_status (taskID : String) (result : Option ImageGenerationResponse)
    (now : Int) (tm : TaskManager) (l : Bool) (pc : Nat) (resp : Option GetImageTaskResponse)
    (e : Option StatusError) :
    RaceState.writerStep taskID result now ⟨tm, l, 1, pc, resp, e⟩ =
      ⟨⟨mapModify tm.tasks taskID fun task => { task with Status := .Completed }⟩, l, 2, pc,
        resp, e⟩ := rfl

theorem writerStep_result (taskID : String) (result : Option ImageGenerationResponse)
    (now : Int) (tm : TaskManager) (l : Bool) (pc : Nat) (resp : Option GetImageTaskResponse)
    (e : Option StatusError) :
    RaceState.writerStep taskID result now ⟨tm, l, 2, pc, resp, e⟩ =
      ⟨⟨mapModify tm.tasks taskID fun task => { task with Result := result }⟩, l, 3, pc,
        resp, e⟩ := rfl

theorem writerStep_updatedAt (taskID : String) (result : Option ImageGenerationResponse)
    (now : Int) (tm : TaskManager) (l : Bool) (pc : Nat) (resp : Option GetImageTaskResponse)
    (e : Option StatusError) :
    RaceState.writerStep taskID result now ⟨tm, l, 3, pc, resp, e⟩ =
      ⟨⟨mapModify tm.tasks taskID fun task => { task with UpdatedAt := now }⟩, l, 4, pc,
        resp, e⟩ := rfl

theorem writerStep_unlock (taskID : String) (result : Option ImageGenerationResponse)
    (now : Int) (tm : TaskManager) (l : Bool) (pc : Nat) (resp : Option GetImageTaskResponse)
    (e : Option StatusError) :
    RaceState.writerStep taskID result now ⟨tm, l, 4, pc, resp, e⟩ =
      ⟨tm, false, 5, pc, resp, e⟩ := rfl

/-- The steps of `UpdateTaskResult` run to the end make the method of the store. -/
theorem runRace_writer (taskID : String) (result : Option ImageGenerationResponse)
    (now : Int) (tm : TaskManager) :
    runRace taskID result now tm [.writer, .writer, .writer, .writer, .writer] =
      ⟨tm.UpdateTaskResult taskID result now, false, 5, 0, none, none⟩ := by
  simp only [runRace, List.foldl, RaceState.step, RaceState.start, writerStep_lock,
    writerStep_status, writerStep_result, writerStep_updatedAt, writerStep_unlock,
    mapModify_mapModify, TaskManager.UpdateTaskResult]

/-- The steps of `GetImageTask` run to the end without a writer make the method of the
service. -/
theorem pollerSteps_eq_getImageTask (taskID : String) (result : Option ImageGenerationResponse)
    (now : Int) (tm : TaskManager) (pc : Nat) :
    (([Thread.poller, .poller, .poller, .poller].foldl (RaceState.step taskID result now)
        ⟨tm, false, pc, 0, none, none⟩).response,
      ([Thread.poller, .poller, .poller, .poller].foldl (RaceState.step taskID result now)
        ⟨tm, false, pc, 0, none, none⟩).err) =
      ImageService.GetImageTask tm taskID := by
  simp only [List.foldl, RaceState.step, ImageService.GetImageTask, TaskManager.GetTask]
  cases hl : List.lookup taskID tm.tasks with
  | none =>
    have h0 : RaceState.pollerStep taskID ⟨tm, false, pc, 0, none, none⟩ =
        ⟨tm, false, pc, 4, none, some ⟨.NotFound, "Task not found"⟩⟩ := by
      simp [RaceState.pollerStep, TaskManager.GetTask, hl]
    rw [h0]
    rfl
  | some task =>
    have h0 : RaceState.pollerStep taskID ⟨tm, false, pc, 0, none, none⟩ =
        ⟨tm, false, pc, 1, none, none⟩ := by
      simp [RaceState.pollerStep, TaskManager.GetTask, hl]
    have h1 : RaceState.pollerStep taskID ⟨tm, false, pc, 1, none, none⟩ =
        ⟨tm, false, pc, 2, some ⟨task.ID, ImageService.convertTaskStatus task.Status,
          task.CreatedAt, task.UpdatedAt, none, ""⟩, none⟩ := by
      simp [RaceState.pollerStep, hl]
    rw [h0, h1]
    cases hs : task.Status <;> cases hr : task.Result <;>
      by_cases he : task.Error = "" <;>
        simp [RaceState.pollerStep, hl, hs, hr, he]

/-- When the writer runs first and the poll after it, the store is the one
`UpdateTaskResult` returns and the poll returns what `GetImageTask` returns on that store. -/
theorem runRace_writer_first (taskID : String) (result : Option ImageGenerationResponse)
    (now : Int) (tm : TaskManager) :
    ((runRace taskID result now tm scheduleWriterFirst).response,
      (runRace taskID result now tm scheduleWriterFirst).err) =
      ImageService.GetImageTask (tm.UpdateTaskResult taskID result now) taskID := by
  have hsplit : runRace taskID result now tm scheduleWriterFirst =
      [Thread.poller, .poller, .poller, .poller].foldl (RaceState.step taskID result now)
        (runRace taskID result now tm [.writer, .writer, .writer, .writer, .writer]) := by
    unfold runRace scheduleWriterFirst
    exact List.foldl_append _ _ [Thread.writer, .writer, .writer, .writer, .writer]
      [Thread.poller, .poller, .poller, .poller]
  rw [hsplit, runRace_writer]
  exact pollerSteps_eq_getImageTask taskID result now _ 5

/-- C15. The code on the schedule `scheduleStatusBeforeResult`, from a store whose job is
Processing: the poll and `UpdateTaskResult` both run to their end, the store is the one
`UpdateTaskResult` returns, and the poll has answered with status Completed and no result,
having read the task between the assignment of `Status` and the assignment of `Result`. -/
theorem poll_sees_completed_without_result :
    (runRace "task_1" (some oneImageResult) 3 storeWithProcessingJob
      scheduleStatusBeforeResult).pollerPC = 4 ∧
    (runRace "task_1" (some oneImageResult) 3 storeWithProcessingJob
      scheduleStatusBeforeResult).writerPC = 5 ∧
    (runRace "task_1" (some oneImageResult) 3 storeWithProcessingJob
      scheduleStatusBeforeResult).tm =
        storeWithProcessingJob.UpdateTaskResult "task_1" (some oneImageResult) 3 ∧
    (runRace "task_1" (some oneImageResult) 3 storeWithProcessingJob
      scheduleStatusBeforeResult).err = none ∧
    ((runRace "task_1" (some oneImageResult) 3 storeWithProcessingJob
      scheduleStatusBeforeResult).response).map (fun r => (r.Status, r.Result)) =
        some (.TASK_STATUS_COMPLETED, none) := by
  decide

end Sia
